import Mathlib

/-!
# Chain parameters of BitGreen (`src/chainparams.cpp`)

A shallow embedding of the chain-parameter registry: the genesis block builder,
the LLMQ catalogue, the three network profiles (`CMainParams`, `CTestNetParams`,
`CRegTestParams`), the regtest `-vbparams` override and the process-wide
selector (`Params`, `CreateChainParams`, `SelectParams`).

Conventions.
* `int`, `int64_t` and `CAmount` values are `Int`; `uint32_t` and `uint256` values are `Nat`.
* A call that can throw or hit a failed `assert` returns `Except Failure _`.
* What the file uses but does not define (hash functions, `ParseInt64`, the deployment
  name table, `SelectBaseParams`, a few constants) is a field of `Externals`; small
  helpers (`uint256S`, `ParseHex`, the `CScript` push operators) are modelled in place.
* The sample environment instantiates the hash functions with the double SHA-256 of the
  wire format, which reproduces the genesis hashes the constructors assert.
* Members of `CChainParams` that no statement below reads (`pchMessageStart`,
  `base58Prefixes`, the seed vectors, `chainTxData`) are left out of the record.
-/

namespace BitGreen

/-! ## Failures -/

/-- What an aborted call raises: a thrown `std::runtime_error` with its message, or a
failed `assert` with the asserted expression. -/
inductive Failure where
  | runtime_error (what : String)
  | assertion (expr : String)
  deriving DecidableEq, Repr

/-- The C `assert(cond)`: nothing happens when the condition holds, the process aborts otherwise. -/
def assert (cond : Bool) (expr : String) : Except Failure Unit :=
  if cond then .ok () else .error (.assertion expr)

/-! ## Strings: `boost::split` and hexadecimal literals -/

/-- Tokenisation behind `boost::split` with the default `token_compress_off`: every
separator ends a token, so `n` separators give `n + 1` tokens (possibly empty ones). -/
def splitChars (sep : Char → Bool) : List Char → List (List Char)
  | [] => [[]]
  | c :: cs =>
    if sep c then [] :: splitChars sep cs
    else
      match splitChars sep cs with
      | [] => [[c]]
      | tok :: toks => (c :: tok) :: toks

/-- The predicate `boost::is_any_of(set)`. -/
def is_any_of (set : String) (c : Char) : Bool :=
  set.data.contains c

/-- The call `boost::split(result, input, pred)`, returning `result`. -/
def boost_split (input : String) (pred : Char → Bool) : List String :=
  (splitChars pred input.data).map String.mk

/-- Value of one hexadecimal digit, if the character is one. -/
def hexDigit (c : Char) : Option Nat :=
  if '0' ≤ c ∧ c ≤ '9' then some (c.toNat - 48)
  else if 'a' ≤ c ∧ c ≤ 'f' then some (c.toNat - 87)
  else if 'A' ≤ c ∧ c ≤ 'F' then some (c.toNat - 55)
  else none

/-- Reads hexadecimal digits, most significant first, up to the first character that is not one. -/
def readHex : Nat → List Char → Nat
  | acc, [] => acc
  | acc, c :: cs =>
    match hexDigit c with
    | some d => readHex (16 * acc + d) cs
    | none => acc

/-- Modelled from the spec: `uint256S` (uint256.h) is not under src/. It turns a
"literal 256-bit hash constant", written in hexadecimal with an optional `0x` in front,
into the 256-bit unsigned integer it denotes. -/
def uint256S (str : String) : Nat :=
  let digits :=
    match str.data with
    | '0' :: 'x' :: rest => rest
    | all => all
  readHex 0 digits % 2 ^ 256

/-! ## Data model -/

/-- Positions of `Consensus::vDeployments`. The enum `Consensus::DeploymentPos`
(consensus/params.h) is not under src/: these are the positions the constructors
configure, and `MAX_VERSION_BITS_DEPLOYMENTS` counts them. -/
inductive DeploymentPos where
  | DEPLOYMENT_TESTDUMMY
  | DEPLOYMENT_CSV
  | DEPLOYMENT_SEGWIT
  deriving DecidableEq, Repr

/-- The values `DeploymentPos(j)` for `j = 0 .. MAX_VERSION_BITS_DEPLOYMENTS - 1`, in the
order the loop of `UpdateVersionBitsParametersFromArgs` visits them. -/
def DeploymentPos.all : List DeploymentPos :=
  [.DEPLOYMENT_TESTDUMMY, .DEPLOYMENT_CSV, .DEPLOYMENT_SEGWIT]

/-- One entry of the version-bits table: `Consensus::BIP9Deployment`. -/
structure BIP9Deployment where
  bit : Int
  nStartTime : Int
  nTimeout : Int
  deriving DecidableEq, Repr

/-- One entry of `VersionBitsDeploymentInfo`; only `name` is read here. -/
structure VBDeploymentInfo where
  name : String
  deriving DecidableEq, Repr

/-- Quorum type identifiers used by this file (`Consensus::LLMQType`). -/
inductive LLMQType where
  | LLMQ_5_60
  | LLMQ_50_60
  | LLMQ_400_60
  | LLMQ_400_85
  deriving DecidableEq, Repr

/-- Parameters of one quorum type: `Consensus::LLMQParams`. -/
structure LLMQParams where
  type : LLMQType
  name : String
  size : Int
  minSize : Int
  threshold : Int
  dkgInterval : Int
  dkgPhaseBlocks : Int
  dkgMiningWindowStart : Int
  dkgMiningWindowEnd : Int
  dkgBadVotesThreshold : Int
  signingActiveQuorumCount : Int
  keepOldConnections : Int
  deriving DecidableEq, Repr

/-- A height-indexed step function: (activation height, value) pairs in the order written. -/
abbrev StepDefinitions := List (Int × Int)

/-- The assignment `m[k] = v` on a `std::map`, kept as an association list with one
entry per key: an existing entry for `k` is overwritten, otherwise one is added. -/
def mapAssign {K V : Type} [DecidableEq K] : List (K × V) → K → V → List (K × V)
  | [], k, v => [(k, v)]
  | (k', v') :: rest, k, v =>
    if k' = k then (k, v) :: rest else (k', v') :: mapAssign rest k v

/-- The keys of a map. -/
def mapKeys {K V : Type} (m : List (K × V)) : List K :=
  m.map Prod.fst

/-- Lookup `m.find(k)` on a map. -/
def mapFind {K V : Type} [DecidableEq K] : List (K × V) → K → Option V
  | [], _ => none
  | (k', v') :: rest, k => if k' = k then some v' else mapFind rest k

/-- The record `Consensus::Params`, with the members this file assigns. -/
structure Consensus.Params where
  nSubsidyHalvingInterval : Int
  BIP16Exception : Nat
  BIP34Height : Int
  BIP34Hash : Nat
  BIP65Height : Int
  BIP66Height : Int
  powLimit : Nat
  nPowTargetTimespan : Int
  nPowTargetSpacing : Int
  fPowAllowMinDifficultyBlocks : Bool
  fPowNoRetargeting : Bool
  nPosTargetSpacing : Int
  nPosTargetTimespan : Int
  nModifierInterval : Int
  nLastPoWBlock : Int
  nRuleChangeActivationThreshold : Int
  nMinerConfirmationWindow : Int
  nMasternodeMinimumConfirmations : Int
  nStakeEnforcement : Int
  nMinStakeHistory : Int
  minAgeDefinitions : StepDefinitions
  maxAgeDefinitions : StepDefinitions
  heightDefinitions : StepDefinitions
  weightDefinitions : StepDefinitions
  nSuperblockCycle : Int
  nGovernanceMinQuorum : Int
  nGovernanceFilterElements : Int
  nBudgetPaymentsStartBlock : Int
  nBudgetPaymentsCycleBlocks : Int
  nBudgetPaymentsWindowBlocks : Int
  nSuperblockStartBlock : Int
  vDeployments : DeploymentPos → BIP9Deployment
  nMinimumChainWork : Nat
  defaultAssumeValid : Nat
  nInstantSendConfirmationsRequired : Int
  nInstantSendKeepLock : Int
  hashGenesisBlock : Nat
  llmqs : List (LLMQType × LLMQParams)
  llmqChainLocks : LLMQType
  llmqForInstantSend : LLMQType
  nLLMQActivationHeight : Int

/-- A script: its bytes (`CScript` is a vector of `unsigned char`). -/
abbrev CScript := List Nat

/-- A reference to a transaction output, `COutPoint`. -/
structure COutPoint where
  hash : Nat
  n : Nat
  deriving DecidableEq, Repr

/-- A transaction input. -/
structure CTxIn where
  prevout : COutPoint
  scriptSig : CScript
  nSequence : Nat
  deriving DecidableEq, Repr

/-- A transaction output. -/
structure CTxOut where
  nValue : Int
  scriptPubKey : CScript
  deriving DecidableEq, Repr

/-- The transaction under construction, `CMutableTransaction`. -/
structure CMutableTransaction where
  nVersion : Int
  nType : Int
  vin : List CTxIn
  vout : List CTxOut
  nLockTime : Nat
  deriving DecidableEq, Repr

/-- A block: header members and the transactions. -/
structure CBlock where
  nVersion : Int
  hashPrevBlock : Nat
  hashMerkleRoot : Nat
  nTime : Nat
  nBits : Nat
  nNonce : Nat
  vtx : List CMutableTransaction
  deriving DecidableEq, Repr

/-- The checkpoint table `CCheckpointData`: (height, block hash) pairs as listed. -/
structure CCheckpointData where
  mapCheckpoints : List (Int × Nat)
  deriving DecidableEq, Repr

/-- The record `CChainParams`. -/
structure CChainParams where
  strNetworkID : String
  consensus : Consensus.Params
  nDefaultPort : Int
  nPruneAfterHeight : Nat
  m_assumed_blockchain_size : Nat
  m_assumed_chain_state_size : Nat
  genesis : CBlock
  bech32_hrp : String
  fDefaultConsistencyChecks : Bool
  fRequireStandard : Bool
  m_is_test_chain : Bool
  fMiningRequiresPeers : Bool
  fAllowMultiplePorts : Bool
  nFulfilledRequestExpireTime : Int
  vSporkAddresses : List String
  nMinSporkKeys : Int
  checkpointData : CCheckpointData

/-- The named-argument source `ArgsManager`, through the two queries this file makes. -/
structure ArgsManager where
  IsArgSet : String → Bool
  GetArgs : String → List String

/-- What `chainparams.cpp` takes from the rest of the code base and does not define:
constants of `amount.h` and `consensus/params.h`, the table of `versionbitsinfo.cpp`,
`ParseInt64` of `util/strencodings.h` (its result is `some n` when it returns true and
stores `n`), the two hash computations on a block, and `SelectBaseParams` of
`chainparamsbase.cpp` (which may also reconfigure the argument source). -/
structure Externals where
  COIN : Int
  NO_TIMEOUT : Int
  ALWAYS_ACTIVE : Int
  VersionBitsDeploymentInfo : DeploymentPos → VBDeploymentInfo
  ParseInt64 : String → Option Int
  BlockMerkleRoot : CBlock → Nat
  GetHash : CBlock → Nat
  SelectBaseParams : String → ArgsManager → Except Failure Unit × ArgsManager

/-! ## Genesis block -/

/-- The null block a default-constructed `CBlock` is. -/
def CBlock.null : CBlock :=
  { nVersion := 0, hashPrevBlock := 0, hashMerkleRoot := 0, nTime := 0, nBits := 0, nNonce := 0, vtx := [] }

/-- Little-endian bytes of `n`, at most `fuel` of them, without trailing zero bytes. -/
def leBytes : Nat → Nat → List Nat
  | 0, _ => []
  | fuel + 1, n => if n = 0 then [] else n % 256 :: leBytes fuel (n / 256)

/-- Modelled from the spec: `CScriptNum::serialize` (script/script.h) is not under src/.
The number is written as little-endian magnitude bytes with the sign in the top bit of the
last byte; the block comment above `CreateGenesisBlock` shows the resulting coinbase
script (`04ffff001d0104...`). -/
def CScriptNum.serialize (value : Int) : List Nat :=
  let result := leBytes 9 value.natAbs
  match result.getLast? with
  | none => []
  | some top =>
    if top &&& 0x80 ≠ 0 then result ++ [if value < 0 then 0x80 else 0]
    else if value < 0 then result.dropLast ++ [top ||| 0x80]
    else result

/-- Modelled from the spec: `CScript::operator<<(const std::vector<unsigned char>&)`
(script/script.h) is not under src/. The data is appended after its length, written as
one byte below `OP_PUSHDATA1 = 0x4c`, else after `OP_PUSHDATA1`, `OP_PUSHDATA2` or
`OP_PUSHDATA4` and a 1, 2 or 4 byte little-endian length. -/
def CScript.pushData (script : CScript) (b : List Nat) : CScript :=
  let n := b.length
  if n < 0x4c then script ++ [n] ++ b
  else if n ≤ 0xff then script ++ [0x4c, n] ++ b
  else if n ≤ 0xffff then script ++ [0x4d, n % 256, n / 256] ++ b
  else script ++ [0x4e, n % 256, n / 256 % 256, n / 65536 % 256, n / 16777216 % 256] ++ b

/-- Modelled from the spec: `CScript::operator<<(const CScriptNum&)` (script/script.h) is
not under src/: the serialised number is pushed as data. -/
def CScript.pushScriptNum (script : CScript) (value : Int) : CScript :=
  script.pushData (CScriptNum.serialize value)

/-- Modelled from the spec: `CScript::operator<<(int64_t)` (script/script.h) is not under
src/: -1 and 1..16 become the opcodes `OP_1NEGATE`, `OP_1` .. `OP_16`, zero becomes `OP_0`,
and any other number is pushed as a serialised `CScriptNum`. -/
def CScript.pushInt64 (script : CScript) (n : Int) : CScript :=
  if n = -1 ∨ (1 ≤ n ∧ n ≤ 16) then script ++ [(n + 0x50).toNat]
  else if n = 0 then script ++ [0]
  else script.pushData (CScriptNum.serialize n)

/-- Modelled from the spec: `CScript::operator<<(opcodetype)` (script/script.h) is not
under src/: the opcode byte is appended. -/
def CScript.pushOp (script : CScript) (opcode : Nat) : CScript :=
  script ++ [opcode]

/-- Modelled from the spec: the opcode `OP_CHECKSIG` (script/script.h) is not under src/;
its byte is `0xac`. -/
def OP_CHECKSIG : Nat := 0xac

/-- The bytes written as pairs of hexadecimal digits, up to the first character that is
not a digit. -/
def hexPairs : List Char → List Nat
  | c1 :: c2 :: rest =>
    match hexDigit c1, hexDigit c2 with
    | some hi, some lo => (16 * hi + lo) :: hexPairs rest
    | _, _ => []
  | _ => []

/-- Modelled from the spec: `ParseHex` (util/strencodings.h) is not under src/: the bytes
a string of hexadecimal digit pairs denotes. -/
def ParseHex (psz : String) : List Nat :=
  hexPairs psz.data

/-- The bytes of a C string (without the terminating zero). -/
def cstrBytes (psz : String) : List Nat :=
  psz.data.map Char.toNat

/-- The seven-argument overload of `CreateGenesisBlock`: one transaction with one input
(the script pushing 486604799, `CScriptNum(4)` and the bytes of `pszTimestamp`) and one
output, placed in a block whose merkle root is then computed. The input created by
`vin.resize(1)` has a null previous output and the final sequence number. -/
def CreateGenesisBlockOf (X : Externals) (pszTimestamp : String) (genesisOutputScript : CScript)
    (nTime nNonce nBits : Nat) (nVersion : Int) (genesisReward : Int) : CBlock :=
  let scriptSig : CScript :=
    ((CScript.pushInt64 [] 486604799).pushScriptNum 4).pushData (cstrBytes pszTimestamp)
  let txNew : CMutableTransaction :=
    { nVersion := 1
      nType := 0
      vin := [{ prevout := { hash := 0, n := 4294967295 }, scriptSig := scriptSig,
                nSequence := 4294967295 }]
      vout := [{ nValue := genesisReward, scriptPubKey := genesisOutputScript }]
      nLockTime := 0 }
  let genesis : CBlock :=
    { CBlock.null with
      nTime := nTime, nBits := nBits, nNonce := nNonce, nVersion := nVersion, vtx := [txNew],
      hashPrevBlock := 0 }
  { genesis with hashMerkleRoot := X.BlockMerkleRoot genesis }

/-- The five-argument `CreateGenesisBlock`, with the fixed timestamp text and output script. -/
def CreateGenesisBlock (X : Externals) (nTime nNonce nBits : Nat) (nVersion : Int)
    (genesisReward : Int) : CBlock :=
  let pszTimestamp :=
    "Even With Energy Surplus, Canada Unable to Meet Electricity Demands of Bitcoin Miners"
  let genesisOutputScript : CScript :=
    (CScript.pushData [] (ParseHex "04e5a8143f86ad8ac63791fbbdb8e0b91a8da88c8c693a95f6c2c13c063ea790f7960b8025a9047a7bc671d5cfe707a2dd2e13b86182e1064a0eea7bf863636363")).pushOp OP_CHECKSIG
  CreateGenesisBlockOf X pszTimestamp genesisOutputScript nTime nNonce nBits nVersion genesisReward

/-! ## Quorum catalogue -/

/-- Catalogue entry `llmq5_60` (for testing only). -/
def llmq5_60 : LLMQParams :=
  { type := .LLMQ_5_60
    name := "llmq_5_60"
    size := 5
    minSize := 3
    threshold := 3
    dkgInterval := 24
    dkgPhaseBlocks := 2
    dkgMiningWindowStart := 10
    dkgMiningWindowEnd := 18
    dkgBadVotesThreshold := 8
    signingActiveQuorumCount := 2
    keepOldConnections := 3 }

/-- Catalogue entry `llmq50_60`. -/
def llmq50_60 : LLMQParams :=
  { type := .LLMQ_50_60
    name := "llmq_50_60"
    size := 50
    minSize := 40
    threshold := 30
    dkgInterval := 24
    dkgPhaseBlocks := 2
    dkgMiningWindowStart := 10
    dkgMiningWindowEnd := 18
    dkgBadVotesThreshold := 40
    signingActiveQuorumCount := 24
    keepOldConnections := 25 }

/-- Catalogue entry `llmq400_60`. -/
def llmq400_60 : LLMQParams :=
  { type := .LLMQ_400_60
    name := "llmq_400_60"
    size := 400
    minSize := 300
    threshold := 240
    dkgInterval := 24 * 12
    dkgPhaseBlocks := 4
    dkgMiningWindowStart := 20
    dkgMiningWindowEnd := 28
    dkgBadVotesThreshold := 300
    signingActiveQuorumCount := 4
    keepOldConnections := 5 }

/-- Catalogue entry `llmq400_85`. -/
def llmq400_85 : LLMQParams :=
  { type := .LLMQ_400_85
    name := "llmq_400_85"
    size := 400
    minSize := 350
    threshold := 340
    dkgInterval := 24 * 24
    dkgPhaseBlocks := 4
    dkgMiningWindowStart := 20
    dkgMiningWindowEnd := 48
    dkgBadVotesThreshold := 300
    signingActiveQuorumCount := 4
    keepOldConnections := 5 }

/-! ## Object state at the start of a constructor -/

/-- State of a `CChainParams` object when a constructor body starts. Members of class
type are default-constructed: strings, vectors and maps are empty, `uint256` values are
zero, the block is null. Scalar members have no initialiser in this file; they hold
whatever the storage `mem` holds until the constructor assigns them. -/
def CChainParams.fresh (mem : CChainParams) : CChainParams :=
  { mem with
    strNetworkID := ""
    bech32_hrp := ""
    vSporkAddresses := []
    checkpointData := { mapCheckpoints := [] }
    genesis := CBlock.null
    consensus :=
      { mem.consensus with
        BIP16Exception := 0
        BIP34Hash := 0
        powLimit := 0
        nMinimumChainWork := 0
        defaultAssumeValid := 0
        hashGenesisBlock := 0
        minAgeDefinitions := []
        maxAgeDefinitions := []
        heightDefinitions := []
        weightDefinitions := []
        llmqs := [] } }

/-- The two statements `genesis = CreateGenesisBlock(..); consensus.hashGenesisBlock =
genesis.GetHash();` that every constructor runs, given the block created. -/
def setGenesis (X : Externals) (p : CChainParams) (genesis : CBlock) : CChainParams :=
  { p with
    genesis := genesis
    consensus := { p.consensus with hashGenesisBlock := X.GetHash genesis } }

/-! ## Main network -/

/-- Body of `CMainParams::CMainParams()` up to the creation of the genesis block. -/
def CMainParams.beforeGenesis (X : Externals) (mem : CChainParams) : CChainParams :=
  let p := CChainParams.fresh mem
  let c := p.consensus
  let c : Consensus.Params :=
    { c with
      nSubsidyHalvingInterval := 525600
      BIP16Exception := 0
      BIP34Height := 1
      BIP34Hash := 0
      BIP65Height := 1
      BIP66Height := 1
      powLimit := uint256S "00000fffffffffffffffffffffffffffffffffffffffffffffffffffffffffff"
      nPowTargetTimespan := 1 * 24 * 60 * 60
      nPowTargetSpacing := 1 * 60
      fPowAllowMinDifficultyBlocks := false
      fPowNoRetargeting := false
      nPosTargetSpacing := 2 * 60
      nPosTargetTimespan := 60 * 40
      nModifierInterval := 60
      nLastPoWBlock := 1500
      nRuleChangeActivationThreshold := 1916
      nMinerConfirmationWindow := 2016
      nMasternodeMinimumConfirmations := 15
      nStakeEnforcement := 70000
      nMinStakeHistory := 360
      minAgeDefinitions := [(0, 60 * 60 * 12), (175000, 60 * 60 * 24)]
      maxAgeDefinitions := [(0, 60 * 60 * 48), (175000, 60 * 60 * 96)]
      heightDefinitions := [(70000, 200 * X.COIN)]
      weightDefinitions := [(0, 200), (175000, 1000)]
      nSuperblockCycle := 20571
      nGovernanceMinQuorum := 10
      nGovernanceFilterElements := 20000
      nBudgetPaymentsStartBlock := 10000
      nBudgetPaymentsCycleBlocks := 20571
      nBudgetPaymentsWindowBlocks := 100
      nSuperblockStartBlock := 12000
      vDeployments := fun d =>
        match d with
        | .DEPLOYMENT_TESTDUMMY => { bit := 28, nStartTime := 1199145601, nTimeout := 1230767999 }
        | .DEPLOYMENT_CSV => { bit := 0, nStartTime := 1462060800, nTimeout := 1493596800 }
        | .DEPLOYMENT_SEGWIT => { bit := 1, nStartTime := X.ALWAYS_ACTIVE, nTimeout := X.NO_TIMEOUT }
      nMinimumChainWork := uint256S "0x00"
      defaultAssumeValid := uint256S "0x00"
      nInstantSendConfirmationsRequired := 6
      nInstantSendKeepLock := 24 }
  { p with
    strNetworkID := "main"
    consensus := c
    nDefaultPort := 9333
    nPruneAfterHeight := 100000
    m_assumed_blockchain_size := 1
    m_assumed_chain_state_size := 0 }

/-- Body of `CMainParams::CMainParams()` after the two genesis assertions. -/
def CMainParams.afterGenesis (p : CChainParams) : CChainParams :=
  let c := p.consensus
  let llmqs := mapAssign c.llmqs .LLMQ_50_60 llmq50_60
  let llmqs := mapAssign llmqs .LLMQ_400_60 llmq400_60
  let llmqs := mapAssign llmqs .LLMQ_400_85 llmq400_85
  { p with
    bech32_hrp := "bg"
    consensus :=
      { c with
        llmqs := llmqs
        llmqChainLocks := .LLMQ_400_60
        llmqForInstantSend := .LLMQ_50_60
        nLLMQActivationHeight := 50 }
    fDefaultConsistencyChecks := false
    fRequireStandard := true
    m_is_test_chain := false
    fMiningRequiresPeers := true
    fAllowMultiplePorts := true
    nFulfilledRequestExpireTime := 60 * 60
    vSporkAddresses := ["GMWbuDW6m6WCc7Zc9W3CSuviXzqPKK3eBj"]
    nMinSporkKeys := 1
    checkpointData :=
      { mapCheckpoints :=
          [ (1, uint256S "0x0000062cf9ac97b1582474e313770e4609c338ed6fae01142da65722353465f3"),
            (100, uint256S "0x000005faf4d7d9dccd3a1986eb7150a22f21f80664d5deb91cb1ca38eb305e7e"),
            (6439, uint256S "0x7c6f9621fe18f22e57d042a3804be45a9ace2d17a305036242d7ba90b68345cb"),
            (70004, uint256S "0x2da7cf773e5032a76aa4480b033c1ac6978ff64531f168c92d022c90f5bf7996"),
            (80000, uint256S "0x1f6545f0cd4a07a02a5b0175f22b371fc1839839df8d835c04f6420a08d43877"),
            (90000, uint256S "0x1d4a1b059b96fa871e9aa09eca0e2ed18ef369556ef8ee88bacf3b3705812e26"),
            (100000, uint256S "0x8a58bc2b0d6b13229f4ec1d9733317a82e62dbc035e09384ee9e73b77a3e3c76"),
            (105000, uint256S "0xa9e075e368ebc428c223055d4c3db108106098237dc9f55af687f56781c4d932"),
            (110000, uint256S "0xfc62dddbd615c0c5d34fc24cb4f6d6b86f02465c036ac42d1bda585e1ac3d066") ] } }

/-- The constructor `CMainParams::CMainParams()` run on storage `mem`: the assignments,
with the two assertions on the genesis block in between. -/
def CMainParams (X : Externals) (mem : CChainParams) : Except Failure CChainParams := do
  let p := CMainParams.beforeGenesis X mem
  let genesis := CreateGenesisBlock X 1574334000 27296764 0x1e0ffff0 1 (0 * X.COIN)
  let p := setGenesis X p genesis
  assert (p.consensus.hashGenesisBlock ==
      uint256S "0x0000025289d6b03cbda4950e825cd865185f34fbb3e098295534b63d78beba15")
    "consensus.hashGenesisBlock"
  assert (p.genesis.hashMerkleRoot ==
      uint256S "0x07cbcacfc822fba6bbeb05312258fa43b96a68fc310af8dfcec604591763f7cf")
    "genesis.hashMerkleRoot"
  return CMainParams.afterGenesis p

/-! ## Test network -/

/-- Body of `CTestNetParams::CTestNetParams()` up to the creation of the genesis block. -/
def CTestNetParams.beforeGenesis (X : Externals) (mem : CChainParams) : CChainParams :=
  let p := CChainParams.fresh mem
  let c := p.consensus
  let c : Consensus.Params :=
    { c with
      nSubsidyHalvingInterval := 210000
      BIP16Exception := 0
      BIP34Height := 200
      BIP34Hash := 0
      BIP65Height := 200
      BIP66Height := 200
      powLimit := uint256S "00000ffff0000000000000000000000000000000000000000000000000000000"
      nPowTargetTimespan := 14 * 24 * 60 * 60
      nPowTargetSpacing := 1 * 60
      fPowAllowMinDifficultyBlocks := true
      fPowNoRetargeting := false
      nPosTargetSpacing := 2 * 60
      nPosTargetTimespan := 60 * 40
      nModifierInterval := 60
      nLastPoWBlock := 200
      nRuleChangeActivationThreshold := 1512
      nMinerConfirmationWindow := 2016
      nMasternodeMinimumConfirmations := 1
      nStakeEnforcement := 200
      nMinStakeHistory := 10
      heightDefinitions := [(200, 1 * X.COIN)]
      nSuperblockCycle := 24
      nGovernanceMinQuorum := 1
      nGovernanceFilterElements := 500
      nBudgetPaymentsStartBlock := 200
      nBudgetPaymentsCycleBlocks := 50
      nBudgetPaymentsWindowBlocks := 10
      nSuperblockStartBlock := 300
      vDeployments := fun d =>
        match d with
        | .DEPLOYMENT_TESTDUMMY => { bit := 28, nStartTime := 1199145601, nTimeout := 1230767999 }
        | .DEPLOYMENT_CSV => { bit := 0, nStartTime := 1456790400, nTimeout := 1493596800 }
        | .DEPLOYMENT_SEGWIT => { bit := 1, nStartTime := 1462060800, nTimeout := 1493596800 }
      nMinimumChainWork := uint256S "0x00"
      defaultAssumeValid := uint256S "0x00"
      nInstantSendConfirmationsRequired := 2
      nInstantSendKeepLock := 6 }
  { p with
    strNetworkID := "test"
    consensus := c
    nDefaultPort := 19333
    nPruneAfterHeight := 1000
    m_assumed_blockchain_size := 1
    m_assumed_chain_state_size := 0 }

/-- Body of `CTestNetParams::CTestNetParams()` after the two genesis assertions. -/
def CTestNetParams.afterGenesis (p : CChainParams) : CChainParams :=
  let c := p.consensus
  let llmqs := mapAssign c.llmqs .LLMQ_50_60 llmq50_60
  let llmqs := mapAssign llmqs .LLMQ_400_60 llmq400_60
  let llmqs := mapAssign llmqs .LLMQ_400_85 llmq400_85
  { p with
    bech32_hrp := "tbg"
    consensus :=
      { c with
        llmqs := llmqs
        llmqChainLocks := .LLMQ_50_60
        llmqForInstantSend := .LLMQ_50_60
        nLLMQActivationHeight := 50 }
    fDefaultConsistencyChecks := false
    fRequireStandard := false
    m_is_test_chain := true
    fMiningRequiresPeers := true
    fAllowMultiplePorts := false
    nFulfilledRequestExpireTime := 5 * 60
    vSporkAddresses := ["gprpehZBigGDp7sNMjEKY46afAd9BWtd29"]
    nMinSporkKeys := 1
    checkpointData := { mapCheckpoints := [] } }

/-- The constructor `CTestNetParams::CTestNetParams()` run on storage `mem`. -/
def CTestNetParams (X : Externals) (mem : CChainParams) : Except Failure CChainParams := do
  let p := CTestNetParams.beforeGenesis X mem
  let genesis := CreateGenesisBlock X 1565017975 21212214 0x1e0ffff0 1 (0 * X.COIN)
  let p := setGenesis X p genesis
  assert (p.consensus.hashGenesisBlock ==
      uint256S "0x00000546a6b03a54ae05f94119e37c55202e90a953058c35364d112d41ded06a")
    "consensus.hashGenesisBlock"
  assert (p.genesis.hashMerkleRoot ==
      uint256S "0x07cbcacfc822fba6bbeb05312258fa43b96a68fc310af8dfcec604591763f7cf")
    "genesis.hashMerkleRoot"
  return CTestNetParams.afterGenesis p

/-! ## Regression test network -/

/-- The method `CRegTestParams::UpdateVersionBitsParameters(d, nStartTime, nTimeout)`. -/
def UpdateVersionBitsParameters (consensus : Consensus.Params) (d : DeploymentPos)
    (nStartTime nTimeout : Int) : Consensus.Params :=
  { consensus with
    vDeployments := fun pos =>
      if pos = d then
        { consensus.vDeployments d with nStartTime := nStartTime, nTimeout := nTimeout }
      else consensus.vDeployments pos }

/-- The inner loop of `UpdateVersionBitsParametersFromArgs` over the positions `js` still
to visit: the first position whose table name equals `name` is updated and the loop
breaks. Returns the flag `found` and the parameters. -/
def updateFirstNamed (X : Externals) (name : String) (nStartTime nTimeout : Int) :
    List DeploymentPos → Consensus.Params → Bool × Consensus.Params
  | [], consensus => (false, consensus)
  | j :: js, consensus =>
    if name = (X.VersionBitsDeploymentInfo j).name then
      (true, UpdateVersionBitsParameters consensus j nStartTime nTimeout)
    else updateFirstNamed X name nStartTime nTimeout js consensus

/-- One iteration of the outer loop of `UpdateVersionBitsParametersFromArgs`, for the
entry `strDeployment`. -/
def applyDeploymentParam (X : Externals) (consensus : Consensus.Params) (strDeployment : String) :
    Except Failure Consensus.Params :=
  let vDeploymentParams := boost_split strDeployment (is_any_of ":")
  if vDeploymentParams.length ≠ 3 then
    .error (.runtime_error "Version bits parameters malformed, expecting deployment:start:end")
  else
    match X.ParseInt64 (vDeploymentParams.getD 1 "") with
    | none => .error (.runtime_error ("Invalid nStartTime (" ++ vDeploymentParams.getD 1 "" ++ ")"))
    | some nStartTime =>
      match X.ParseInt64 (vDeploymentParams.getD 2 "") with
      | none => .error (.runtime_error ("Invalid nTimeout (" ++ vDeploymentParams.getD 2 "" ++ ")"))
      | some nTimeout =>
        match updateFirstNamed X (vDeploymentParams.getD 0 "") nStartTime nTimeout
            DeploymentPos.all consensus with
        | (true, updated) => .ok updated
        | (false, _) =>
          .error (.runtime_error ("Invalid deployment (" ++ vDeploymentParams.getD 0 "" ++ ")"))

/-- The outer loop of `UpdateVersionBitsParametersFromArgs` over the entries still to process. -/
def applyDeploymentParams (X : Externals) :
    List String → Consensus.Params → Except Failure Consensus.Params
  | [], consensus => .ok consensus
  | strDeployment :: rest, consensus =>
    match applyDeploymentParam X consensus strDeployment with
    | .error e => .error e
    | .ok updated => applyDeploymentParams X rest updated

/-- The method `CRegTestParams::UpdateVersionBitsParametersFromArgs(args)`, acting on the
member `consensus` (the log line it prints is not modelled). -/
def UpdateVersionBitsParametersFromArgs (X : Externals) (args : ArgsManager)
    (consensus : Consensus.Params) : Except Failure Consensus.Params :=
  if !args.IsArgSet "-vbparams" then .ok consensus
  else applyDeploymentParams X (args.GetArgs "-vbparams") consensus

/-- Body of `CRegTestParams::CRegTestParams(args)` up to the call of
`UpdateVersionBitsParametersFromArgs`. The three `BIP..Height` members are assigned from
`consensus.nLastPoWBlock` before that member is itself assigned. -/
def CRegTestParams.beforeArgs (X : Externals) (mem : CChainParams) : CChainParams :=
  let p := CChainParams.fresh mem
  let c := p.consensus
  let c : Consensus.Params := { c with nSubsidyHalvingInterval := 150, BIP16Exception := 0 }
  let c : Consensus.Params := { c with BIP34Height := c.nLastPoWBlock }
  let c : Consensus.Params := { c with BIP34Hash := 0 }
  let c : Consensus.Params := { c with BIP65Height := c.nLastPoWBlock }
  let c : Consensus.Params := { c with BIP66Height := c.nLastPoWBlock }
  let c : Consensus.Params :=
    { c with
      powLimit := uint256S "7fffffffffffffffffffffffffffffffffffffffffffffffffffffffffffffff"
      nPowTargetTimespan := 14 * 24 * 60 * 60
      nPowTargetSpacing := 10 * 60
      fPowAllowMinDifficultyBlocks := true
      fPowNoRetargeting := true
      nPosTargetSpacing := 2 * 60
      nPosTargetTimespan := 60 * 40
      nModifierInterval := 60
      nLastPoWBlock := 1000
      nRuleChangeActivationThreshold := 108
      nMinerConfirmationWindow := 144
      nMasternodeMinimumConfirmations := 1
      heightDefinitions := [(200, 1 * X.COIN)]
      nSuperblockCycle := 10
      nGovernanceMinQuorum := 1
      nGovernanceFilterElements := 100
      nBudgetPaymentsStartBlock := 1000
      nBudgetPaymentsCycleBlocks := 50
      nBudgetPaymentsWindowBlocks := 10
      nSuperblockStartBlock := 1500
      vDeployments := fun d =>
        match d with
        | .DEPLOYMENT_TESTDUMMY => { bit := 28, nStartTime := 0, nTimeout := X.NO_TIMEOUT }
        | .DEPLOYMENT_CSV => { bit := 0, nStartTime := 0, nTimeout := X.NO_TIMEOUT }
        | .DEPLOYMENT_SEGWIT => { bit := 1, nStartTime := X.ALWAYS_ACTIVE, nTimeout := X.NO_TIMEOUT }
      nMinimumChainWork := uint256S "0x00"
      defaultAssumeValid := uint256S "0x00"
      nInstantSendConfirmationsRequired := 2
      nInstantSendKeepLock := 6 }
  { p with
    strNetworkID := "regtest"
    consensus := c
    nDefaultPort := 29333
    nPruneAfterHeight := 1000
    m_assumed_blockchain_size := 0
    m_assumed_chain_state_size := 0 }

/-- Body of `CRegTestParams::CRegTestParams(args)` after the two genesis assertions. -/
def CRegTestParams.afterGenesis (p : CChainParams) : CChainParams :=
  let c := p.consensus
  let llmqs := mapAssign c.llmqs .LLMQ_5_60 llmq5_60
  let llmqs := mapAssign llmqs .LLMQ_50_60 llmq50_60
  { p with
    fDefaultConsistencyChecks := true
    fRequireStandard := true
    m_is_test_chain := true
    fMiningRequiresPeers := false
    fAllowMultiplePorts := true
    nFulfilledRequestExpireTime := 5 * 60
    vSporkAddresses := ["gprpehZBigGDp7sNMjEKY46afAd9BWtd29"]
    nMinSporkKeys := 1
    checkpointData := { mapCheckpoints := [] }
    bech32_hrp := "bgrt"
    consensus :=
      { c with
        llmqs := llmqs
        llmqChainLocks := .LLMQ_5_60
        llmqForInstantSend := .LLMQ_5_60
        nLLMQActivationHeight := 500 } }

/-- The constructor `CRegTestParams::CRegTestParams(args)` run on storage `mem`. -/
def CRegTestParams (X : Externals) (mem : CChainParams) (args : ArgsManager) :
    Except Failure CChainParams := do
  let p := CRegTestParams.beforeArgs X mem
  let consensus ← UpdateVersionBitsParametersFromArgs X args p.consensus
  let p := { p with consensus := consensus }
  let genesis := CreateGenesisBlock X 1565017975 20542302 0x207fffff 1 (0 * X.COIN)
  let p := setGenesis X p genesis
  assert (p.consensus.hashGenesisBlock ==
      uint256S "0x100a3271b95d1a817101bcbd7045ad14c9799cb34e1cb6071973c8932ae48b6a")
    "consensus.hashGenesisBlock"
  assert (p.genesis.hashMerkleRoot ==
      uint256S "0x07cbcacfc822fba6bbeb05312258fa43b96a68fc310af8dfcec604591763f7cf")
    "genesis.hashMerkleRoot"
  return CRegTestParams.afterGenesis p

/-! ## Selection -/

/-- Modelled from the spec: the constants `CBaseChainParams::MAIN`, `TESTNET` and `REGTEST`
(chainparamsbase.h) are not under src/; the network name is "one of `main | test | regtest`". -/
def CBaseChainParams.MAIN : String := "main"

/-- Modelled from the spec: see `CBaseChainParams.MAIN`. -/
def CBaseChainParams.TESTNET : String := "test"

/-- Modelled from the spec: see `CBaseChainParams.MAIN`. -/
def CBaseChainParams.REGTEST : String := "regtest"

/-- The globals the selector works on: the argument source `gArgs` and the pointer
`globalChainParams` (`none` is the null pointer). -/
structure Globals where
  gArgs : ArgsManager
  globalChainParams : Option CChainParams

/-- The globals at process start: `globalChainParams` is a null `unique_ptr`. -/
def Globals.atStart (gArgs : ArgsManager) : Globals :=
  { gArgs := gArgs, globalChainParams := none }

/-- The accessor `Params()`. -/
def Params (g : Globals) : Except Failure CChainParams :=
  match g.globalChainParams with
  | none => .error (.assertion "globalChainParams")
  | some p => .ok p

/-- The factory `CreateChainParams(chain)`; `mem` is the storage of the object
allocated by `new`, `gArgs` the global argument source. -/
def CreateChainParams (X : Externals) (mem : CChainParams) (gArgs : ArgsManager) (chain : String) :
    Except Failure CChainParams :=
  if chain = CBaseChainParams.MAIN then CMainParams X mem
  else if chain = CBaseChainParams.TESTNET then CTestNetParams X mem
  else if chain = CBaseChainParams.REGTEST then CRegTestParams X mem gArgs
  else .error (.runtime_error ("CreateChainParams: Unknown chain " ++ chain ++ "."))

/-- The call `SelectParams(network)`: its outcome and the globals it leaves. An exception
leaves `globalChainParams` as it was. -/
def SelectParams (X : Externals) (mem : CChainParams) (network : String) (g : Globals) :
    Except Failure Unit × Globals :=
  match X.SelectBaseParams network g.gArgs with
  | (.error e, gArgs) => (.error e, { g with gArgs := gArgs })
  | (.ok _, gArgs) =>
    match CreateChainParams X mem gArgs network with
    | .error e => (.error e, { g with gArgs := gArgs })
    | .ok p => (.ok (), { gArgs := gArgs, globalChainParams := some p })

/-- The globals after a sequence of `SelectParams` calls, each given as (storage, network
name), whatever their outcomes. -/
def selectAll (X : Externals) : List (CChainParams × String) → Globals → Globals
  | [], g => g
  | (mem, network) :: rest, g => selectAll X rest (SelectParams X mem network g).2

/-! ## Vocabulary of the statements -/

/-- The colon-separated fields of an override entry, as the code splits it. -/
def entryFields (strDeployment : String) : List String :=
  boost_split strDeployment (is_any_of ":")

/-- The entry names deployment `d`: its first field is the table name of `d`. -/
def entryNames (X : Externals) (strDeployment : String) (d : DeploymentPos) : Prop :=
  (entryFields strDeployment).head? = some (X.VersionBitsDeploymentInfo d).name

instance (X : Externals) (strDeployment : String) (d : DeploymentPos) :
    Decidable (entryNames X strDeployment d) := by
  unfold entryNames
  infer_instance

/-- The entry has exactly three fields, of which the second parses to `start` and the
third to `timeout`. -/
def entryValues (X : Externals) (strDeployment : String) (start timeout : Int) : Prop :=
  ∃ name s t, entryFields strDeployment = [name, s, t] ∧
    X.ParseInt64 s = some start ∧ X.ParseInt64 t = some timeout

/-- The entry is a well-formed override `name:start:timeout`: three fields, a known
deployment name, and two fields that parse as 64-bit integers. -/
def validEntry (X : Externals) (strDeployment : String) : Prop :=
  ∃ d start timeout, entryNames X strDeployment d ∧ entryValues X strDeployment start timeout

/-- The deployment names of the table are pairwise distinct. -/
def distinctNames (X : Externals) : Prop :=
  ∀ d d', (X.VersionBitsDeploymentInfo d).name = (X.VersionBitsDeploymentInfo d').name → d = d'

/-- The argument source is coherent for `-vbparams`: an argument that has values is set. -/
def vbparamsCoherent (args : ArgsManager) : Prop :=
  args.GetArgs "-vbparams" ≠ [] → args.IsArgSet "-vbparams" = true

/-- The two genesis assertions of `CMainParams` hold in the environment `X`. -/
def mainGenesisOk (X : Externals) : Prop :=
  X.GetHash (CreateGenesisBlock X 1574334000 27296764 0x1e0ffff0 1 (0 * X.COIN))
      = uint256S "0x0000025289d6b03cbda4950e825cd865185f34fbb3e098295534b63d78beba15" ∧
    (CreateGenesisBlock X 1574334000 27296764 0x1e0ffff0 1 (0 * X.COIN)).hashMerkleRoot
      = uint256S "0x07cbcacfc822fba6bbeb05312258fa43b96a68fc310af8dfcec604591763f7cf"

/-- The two genesis assertions of `CTestNetParams` hold in the environment `X`. -/
def testGenesisOk (X : Externals) : Prop :=
  X.GetHash (CreateGenesisBlock X 1565017975 21212214 0x1e0ffff0 1 (0 * X.COIN))
      = uint256S "0x00000546a6b03a54ae05f94119e37c55202e90a953058c35364d112d41ded06a" ∧
    (CreateGenesisBlock X 1565017975 21212214 0x1e0ffff0 1 (0 * X.COIN)).hashMerkleRoot
      = uint256S "0x07cbcacfc822fba6bbeb05312258fa43b96a68fc310af8dfcec604591763f7cf"

/-- The two genesis assertions of `CRegTestParams` hold in the environment `X`. -/
def regtestGenesisOk (X : Externals) : Prop :=
  X.GetHash (CreateGenesisBlock X 1565017975 20542302 0x207fffff 1 (0 * X.COIN))
      = uint256S "0x100a3271b95d1a817101bcbd7045ad14c9799cb34e1cb6071973c8932ae48b6a" ∧
    (CreateGenesisBlock X 1565017975 20542302 0x207fffff 1 (0 * X.COIN)).hashMerkleRoot
      = uint256S "0x07cbcacfc822fba6bbeb05312258fa43b96a68fc310af8dfcec604591763f7cf"

/-- The heights form a strictly increasing sequence: `heights[i] < heights[i+1]` for every `i`. -/
def strictlyIncreasing (heights : List Int) : Prop :=
  ∀ i (h : i + 1 < heights.length), heights[i] < heights[i + 1]

/-- Executable check of `strictlyIncreasing`. -/
def isStrictlyIncreasing : List Int → Bool
  | a :: b :: rest => decide (a < b) && isStrictlyIncreasing (b :: rest)
  | _ => true

/-- A height-indexed step function is well formed: the list is not empty and its
activation heights are strictly increasing. -/
def stepFunctionOk (defs : StepDefinitions) : Prop :=
  defs ≠ [] ∧ strictlyIncreasing (defs.map Prod.fst)

/-- The four step functions of the parameters are all well formed. -/
def allStepFunctionsOk (c : Consensus.Params) : Prop :=
  stepFunctionOk c.minAgeDefinitions ∧ stepFunctionOk c.maxAgeDefinitions ∧
    stepFunctionOk c.weightDefinitions ∧ stepFunctionOk c.heightDefinitions

/-- Quorum selection is consistent: the quorum types used for chain locks and for
InstantSend are keys of the `llmqs` map, and every entry of the map is stored under the
type its record carries. -/
def quorumConsistent (c : Consensus.Params) : Prop :=
  c.llmqChainLocks ∈ mapKeys c.llmqs ∧ c.llmqForInstantSend ∈ mapKeys c.llmqs ∧
    ∀ kv ∈ c.llmqs, kv.2.type = kv.1

/-- The checkpoint heights of a profile, in the order listed. -/
def checkpointHeights (p : CChainParams) : List Int :=
  p.checkpointData.mapCheckpoints.map Prod.fst

/-- The parameters `c'` differ from `c` in the deployment table at most. -/
def sameExceptDeployments (c c' : Consensus.Params) : Prop :=
  c' = { c with vDeployments := c'.vDeployments }

/-- Modelled from the spec: `arith_uint256::SetCompact` (arith_uint256.h) is not under
src/. The compact form of a target keeps the mantissa in the low 23 bits and the exponent
in the top byte, and the target is "mantissa * 256^(exponent - 3)"; for an exponent of 3
or less the mantissa is divided by the power of 256 instead. -/
def compactTarget (nBits : Nat) : Nat :=
  let exponent := nBits / 2 ^ 24
  let mantissa := nBits % 2 ^ 23
  if exponent ≤ 3 then mantissa / 256 ^ (3 - exponent) else mantissa * 256 ^ (exponent - 3)

/-! ## A sample environment

Concrete values for the parts taken from outside this file, used to instantiate the
general statements. -/

/-- Reads an unsigned decimal numeral. -/
def readDecimal : Nat → List Char → Option Nat
  | acc, [] => some acc
  | acc, c :: cs =>
    if '0' ≤ c ∧ c ≤ '9' then readDecimal (10 * acc + (c.toNat - 48)) cs else none

/-- Modelled from the spec: `ParseInt64` (util/strencodings.h) is not under src/. An
"integer start/timeout value" is read as a decimal numeral with an optional minus sign
that fits a signed 64-bit integer; anything else is a "non-integer" value. -/
def sampleParseInt64 (str : String) : Option Int :=
  let value : Option Int :=
    match str.data with
    | [] => none
    | '-' :: digits => if digits = [] then none else (readDecimal 0 digits).map fun n => -(n : Int)
    | digits => (readDecimal 0 digits).map fun n => (n : Int)
  value.bind fun v => if -(2 : Int) ^ 63 ≤ v ∧ v < (2 : Int) ^ 63 then some v else none

/-- The round constants of SHA-256 (FIPS 180-4), in decimal. -/
def sha256RoundConstants : List Nat :=
  [1116352408, 1899447441, 3049323471, 3921009573, 961987163, 1508970993,
   2453635748, 2870763221, 3624381080, 310598401, 607225278, 1426881987,
   1925078388, 2162078206, 2614888103, 3248222580, 3835390401, 4022224774,
   264347078, 604807628, 770255983, 1249150122, 1555081692, 1996064986,
   2554220882, 2821834349, 2952996808, 3210313671, 3336571891, 3584528711,
   113926993, 338241895, 666307205, 773529912, 1294757372, 1396182291,
   1695183700, 1986661051, 2177026350, 2456956037, 2730485921, 2820302411,
   3259730800, 3345764771, 3516065817, 3600352804, 4094571909, 275423344,
   430227734, 506948616, 659060556, 883997877, 958139571, 1322822218,
   1537002063, 1747873779, 1955562222, 2024104815, 2227730452, 2361852424,
   2428436474, 2756734187, 3204031479, 3329325298]

/-- The initial hash value of SHA-256 (FIPS 180-4), in decimal. -/
def sha256InitialState : List Nat :=
  [1779033703, 3144134277, 1013904242, 2773480762,
   1359893119, 2600822924, 528734635, 1541459225]

/-- Rotation of a 32-bit word to the right. -/
def rotr32 (x n : Nat) : Nat :=
  ((x >>> n) ||| (x <<< (32 - n))) % 4294967296

/-- The SHA-256 function Ch. -/
def sha256Ch (x y z : Nat) : Nat :=
  (x &&& y) ^^^ ((4294967295 - x) &&& z)

/-- The SHA-256 function Maj. -/
def sha256Maj (x y z : Nat) : Nat :=
  (x &&& y) ^^^ (x &&& z) ^^^ (y &&& z)

/-- The SHA-256 function written with a capital sigma, index 0. -/
def sha256Sum0 (x : Nat) : Nat :=
  rotr32 x 2 ^^^ rotr32 x 13 ^^^ rotr32 x 22

/-- The SHA-256 function written with a capital sigma, index 1. -/
def sha256Sum1 (x : Nat) : Nat :=
  rotr32 x 6 ^^^ rotr32 x 11 ^^^ rotr32 x 25

/-- The SHA-256 function written with a small sigma, index 0. -/
def sha256Sig0 (x : Nat) : Nat :=
  rotr32 x 7 ^^^ rotr32 x 18 ^^^ (x >>> 3)

/-- The SHA-256 function written with a small sigma, index 1. -/
def sha256Sig1 (x : Nat) : Nat :=
  rotr32 x 17 ^^^ rotr32 x 19 ^^^ (x >>> 10)

/-- Extends the message schedule by `n` words; `recent` holds the words so far, newest first. -/
def sha256Extend : Nat → List Nat → List Nat
  | 0, recent => recent
  | n + 1, recent =>
    let w := (sha256Sig1 (recent.getD 1 0) + recent.getD 6 0 + sha256Sig0 (recent.getD 14 0)
      + recent.getD 15 0) % 4294967296
    sha256Extend n (w :: recent)

/-- One round of the compression function on the eight working variables. -/
def sha256Round (vars : List Nat) (kw : Nat × Nat) : List Nat :=
  match vars with
  | [a, b, c, d, e, f, g, h] =>
    let t1 := (h + sha256Sum1 e + sha256Ch e f g + kw.1 + kw.2) % 4294967296
    let t2 := (sha256Sum0 a + sha256Maj a b c) % 4294967296
    [(t1 + t2) % 4294967296, a, b, c, (d + t1) % 4294967296, e, f, g]
  | _ => vars

/-- The compression function: the state after one block of sixteen words. -/
def sha256Compress (state : List Nat) (block : List Nat) : List Nat :=
  let schedule := (sha256Extend 48 block.reverse).reverse
  let vars := (sha256RoundConstants.zip schedule).foldl sha256Round state
  List.zipWith (fun x y => (x + y) % 4294967296) state vars

/-- Big-endian 32-bit words of a byte string whose length is a multiple of four. -/
def bytesToWords : List Nat → List Nat
  | a :: b :: c :: d :: rest => (a * 16777216 + b * 65536 + c * 256 + d) :: bytesToWords rest
  | _ => []

/-- Cuts a word list into blocks of sixteen words (at most `fuel` of them). -/
def sha256Blocks : Nat → List Nat → List (List Nat)
  | 0, _ => []
  | fuel + 1, ws => if ws = [] then [] else ws.take 16 :: sha256Blocks fuel (ws.drop 16)

/-- The padded message: a one bit, zero bits, and the bit length as a 64-bit big-endian number. -/
def sha256Pad (msg : List Nat) : List Nat :=
  let len := msg.length
  msg ++ [0x80] ++ List.replicate ((119 - len % 64) % 64) 0
    ++ ((List.range 8).reverse.map fun i => ((8 * len) >>> (8 * i)) % 256)

/-- SHA-256 of a byte string, as 32 bytes. -/
def sha256 (msg : List Nat) : List Nat :=
  let ws := bytesToWords (sha256Pad msg)
  ((sha256Blocks ws.length ws).foldl sha256Compress sha256InitialState).flatMap fun w =>
    [w >>> 24, (w >>> 16) % 256, (w >>> 8) % 256, w % 256]

/-- The `k` low bytes of `n`, least significant first. -/
def leN : Nat → Nat → List Nat
  | 0, _ => []
  | k + 1, n => n % 256 :: leN k (n / 256)

/-- The number whose little-endian bytes are given (how a digest is read as a `uint256`). -/
def ofBytesLE (bytes : List Nat) : Nat :=
  bytes.foldr (fun b acc => b + 256 * acc) 0

/-- Double SHA-256 of a byte string, read as a `uint256`. -/
def Hash256 (bytes : List Nat) : Nat :=
  ofBytesLE (sha256 (sha256 bytes))

/-- The length prefix of the wire format (`WriteCompactSize`). -/
def compactSize (n : Nat) : List Nat :=
  if n < 253 then [n]
  else if n ≤ 0xffff then 253 :: leN 2 n
  else if n ≤ 0xffffffff then 254 :: leN 4 n
  else 255 :: leN 8 n

/-- Wire format of a script: length prefix and bytes. -/
def serializeScript (script : CScript) : List Nat :=
  compactSize script.length ++ script

/-- Wire format of a transaction without witness data: the 32-bit word holding version
and type, the inputs, the outputs and the lock time. -/
def serializeTx (tx : CMutableTransaction) : List Nat :=
  leN 4 ((tx.nVersion + 65536 * tx.nType) % 4294967296).toNat
    ++ compactSize tx.vin.length
    ++ tx.vin.flatMap (fun i =>
        leN 32 i.prevout.hash ++ leN 4 i.prevout.n ++ serializeScript i.scriptSig
          ++ leN 4 i.nSequence)
    ++ compactSize tx.vout.length
    ++ tx.vout.flatMap (fun o =>
        leN 8 (o.nValue % 18446744073709551616).toNat ++ serializeScript o.scriptPubKey)
    ++ leN 4 tx.nLockTime

/-- Wire format of the 80-byte block header. -/
def serializeHeader (block : CBlock) : List Nat :=
  leN 4 (block.nVersion % 4294967296).toNat ++ leN 32 block.hashPrevBlock
    ++ leN 32 block.hashMerkleRoot ++ leN 4 block.nTime ++ leN 4 block.nBits
    ++ leN 4 block.nNonce

/-- One level up in the merkle tree: neighbours are hashed in pairs, a last hash without
neighbour is paired with itself. -/
def merkleLevel : List Nat → List Nat
  | [] => []
  | [a] => [Hash256 (leN 32 a ++ leN 32 a)]
  | a :: b :: rest => Hash256 (leN 32 a ++ leN 32 b) :: merkleLevel rest

/-- The root of the merkle tree over the given hashes (`fuel` levels at most). -/
def ComputeMerkleRoot : Nat → List Nat → Nat
  | _, [] => 0
  | _, [h] => h
  | 0, _ :: _ :: _ => 0
  | fuel + 1, hashes => ComputeMerkleRoot fuel (merkleLevel hashes)

/-- Modelled from the spec: `BlockMerkleRoot` (consensus/merkle.h) and the transaction
hash are not under src/. The builder must "compute its block hash and merkle root (for one
transaction, merkle root equals that transaction's own hash)"; the content hash is taken
to be the one of the Bitcoin code base this file derives from, the double SHA-256 of the
wire format. -/
def wireBlockMerkleRoot (block : CBlock) : Nat :=
  ComputeMerkleRoot block.vtx.length (block.vtx.map fun tx => Hash256 (serializeTx tx))

/-- Modelled from the spec: `CBlock::GetHash` (primitives/block.h) is not under src/. The
"block hash" is taken to be the one of the Bitcoin code base this file derives from, the
double SHA-256 of the 80-byte header. -/
def wireGetHash (block : CBlock) : Nat :=
  Hash256 (serializeHeader block)

/-- Modelled from the spec: `VersionBitsDeploymentInfo` (versionbitsinfo.cpp) is not
under src/. The spec's override example names the test-dummy deployment `testdummy`; the
other two positions get the names of their constants. -/
def sampleDeploymentInfo : DeploymentPos → VBDeploymentInfo
  | .DEPLOYMENT_TESTDUMMY => { name := "testdummy" }
  | .DEPLOYMENT_CSV => { name := "csv" }
  | .DEPLOYMENT_SEGWIT => { name := "segwit" }

/-- Modelled from the spec: `SelectBaseParams` (chainparamsbase.cpp) is not under src/.
It accepts a network name that is "one of `main | test | regtest`" and rejects any
other; this sample leaves the argument source as it is. -/
def sampleSelectBaseParams (chain : String) (gArgs : ArgsManager) :
    Except Failure Unit × ArgsManager :=
  if chain = "main" ∨ chain = "test" ∨ chain = "regtest" then (.ok (), gArgs)
  else (.error (.runtime_error ("CreateBaseChainParams: Unknown chain " ++ chain ++ ".")), gArgs)

/-- The sample environment. The three constants are those of Bitcoin-derived code bases:
10^8 base units per coin, the largest `int64_t` for "never times out" and -1 for
"always active". -/
def sampleExternals : Externals :=
  { COIN := 100000000
    NO_TIMEOUT := 9223372036854775807
    ALWAYS_ACTIVE := -1
    VersionBitsDeploymentInfo := sampleDeploymentInfo
    ParseInt64 := sampleParseInt64
    BlockMerkleRoot := wireBlockMerkleRoot
    GetHash := wireGetHash
    SelectBaseParams := sampleSelectBaseParams }

/-- An argument source in which `-vbparams` is set to the given entries and nothing else is set. -/
def vbparamsArgs (entries : List String) : ArgsManager :=
  { IsArgSet := fun name => decide (name = "-vbparams")
    GetArgs := fun name => if name = "-vbparams" then entries else [] }

/-- An argument source in which nothing is set. -/
def noArgs : ArgsManager :=
  { IsArgSet := fun _ => false
    GetArgs := fun _ => [] }

/-- Storage filled with zeros, as a sample of what an object is constructed on. -/
def zeroMem : CChainParams :=
  { strNetworkID := ""
    consensus :=
      { nSubsidyHalvingInterval := 0, BIP16Exception := 0, BIP34Height := 0, BIP34Hash := 0
        BIP65Height := 0, BIP66Height := 0, powLimit := 0, nPowTargetTimespan := 0
        nPowTargetSpacing := 0, fPowAllowMinDifficultyBlocks := false, fPowNoRetargeting := false
        nPosTargetSpacing := 0, nPosTargetTimespan := 0, nModifierInterval := 0, nLastPoWBlock := 0
        nRuleChangeActivationThreshold := 0, nMinerConfirmationWindow := 0
        nMasternodeMinimumConfirmations := 0, nStakeEnforcement := 0, nMinStakeHistory := 0
        minAgeDefinitions := [], maxAgeDefinitions := [], heightDefinitions := []
        weightDefinitions := [], nSuperblockCycle := 0, nGovernanceMinQuorum := 0
        nGovernanceFilterElements := 0, nBudgetPaymentsStartBlock := 0
        nBudgetPaymentsCycleBlocks := 0, nBudgetPaymentsWindowBlocks := 0, nSuperblockStartBlock := 0
        vDeployments := fun _ => { bit := 0, nStartTime := 0, nTimeout := 0 }
        nMinimumChainWork := 0, defaultAssumeValid := 0, nInstantSendConfirmationsRequired := 0
        nInstantSendKeepLock := 0, hashGenesisBlock := 0, llmqs := []
        llmqChainLocks := .LLMQ_5_60, llmqForInstantSend := .LLMQ_5_60, nLLMQActivationHeight := 0 }
    nDefaultPort := 0
    nPruneAfterHeight := 0
    m_assumed_blockchain_size := 0
    m_assumed_chain_state_size := 0
    genesis := CBlock.null
    bech32_hrp := ""
    fDefaultConsistencyChecks := false
    fRequireStandard := false
    m_is_test_chain := false
    fMiningRequiresPeers := false
    fAllowMultiplePorts := false
    nFulfilledRequestExpireTime := 0
    vSporkAddresses := []
    nMinSporkKeys := 0
    checkpointData := { mapCheckpoints := [] } }

/-! ## Theorems -/

/-! ### Genesis integrity -/

/-- The signature script built by `CreateGenesisBlock` is the coinbase script printed in
the block comment above it in the source. -/
theorem genesis_coinbase_script (X : Externals) (nTime nNonce nBits : Nat) (nVersion reward : Int) :
    (CreateGenesisBlock X nTime nNonce nBits nVersion reward).vtx.map (fun tx => tx.vin.map CTxIn.scriptSig)
      = [[ParseHex "04ffff001d01044c554576656e205769746820456e6572677920537572706c75732c2043616e61646120556e61626c6520746f204d65657420456c6563747269636974792044656d616e6473206f6620426974636f696e204d696e657273"]] := by
  have h : ((CScript.pushInt64 [] 486604799).pushScriptNum 4).pushData (cstrBytes
      "Even With Energy Surplus, Canada Unable to Meet Electricity Demands of Bitcoin Miners")
      = ParseHex "04ffff001d01044c554576656e205769746820456e6572677920537572706c75732c2043616e61646120556e61626c6520746f204d65657420456c6563747269636974792044656d616e6473206f6620426974636f696e204d696e657273" := by
    decide!
  simp only [CreateGenesisBlock, CreateGenesisBlockOf, List.map, h]

set_option maxRecDepth 1000000 in
theorem wire_genesisOk (X : Externals) (hhash : X.GetHash = wireGetHash)
    (hroot : X.BlockMerkleRoot = wireBlockMerkleRoot) :
    mainGenesisOk X ∧ testGenesisOk X ∧ regtestGenesisOk X := by
  simp only [mainGenesisOk, testGenesisOk, regtestGenesisOk, CreateGenesisBlock,
    CreateGenesisBlockOf, hhash, hroot, zero_mul]
  decide!

theorem CMainParams_ok (X : Externals) (mem : CChainParams) (hg : mainGenesisOk X) :
    CMainParams X mem = .ok (CMainParams.afterGenesis (setGenesis X (CMainParams.beforeGenesis X mem)
      (CreateGenesisBlock X 1574334000 27296764 0x1e0ffff0 1 (0 * X.COIN)))) := by
  obtain ⟨h1, h2⟩ := hg
  unfold CMainParams
  simp only [setGenesis, h1, h2, assert, beq_self_eq_true, if_true]
  rfl

theorem CTestNetParams_ok (X : Externals) (mem : CChainParams) (hg : testGenesisOk X) :
    CTestNetParams X mem = .ok (CTestNetParams.afterGenesis (setGenesis X
      (CTestNetParams.beforeGenesis X mem)
      (CreateGenesisBlock X 1565017975 21212214 0x1e0ffff0 1 (0 * X.COIN)))) := by
  obtain ⟨h1, h2⟩ := hg
  unfold CTestNetParams
  simp only [setGenesis, h1, h2, assert, beq_self_eq_true, if_true]
  rfl

theorem CRegTestParams_ok (X : Externals) (mem : CChainParams) (args : ArgsManager)
    (c : Consensus.Params) (hg : regtestGenesisOk X)
    (hup : UpdateVersionBitsParametersFromArgs X args (CRegTestParams.beforeArgs X mem).consensus
      = .ok c) :
    CRegTestParams X mem args = .ok (CRegTestParams.afterGenesis (setGenesis X
      { CRegTestParams.beforeArgs X mem with consensus := c }
      (CreateGenesisBlock X 1565017975 20542302 0x207fffff 1 (0 * X.COIN)))) := by
  obtain ⟨h1, h2⟩ := hg
  unfold CRegTestParams
  simp only [hup, setGenesis, h1, h2, assert, beq_self_eq_true, if_true]
  rfl

theorem sampleExternals_GetHash : sampleExternals.GetHash = wireGetHash := by
  simp only [sampleExternals]

theorem sampleExternals_BlockMerkleRoot : sampleExternals.BlockMerkleRoot = wireBlockMerkleRoot := by
  simp only [sampleExternals]

theorem sampleExternals_genesisOk :
    mainGenesisOk sampleExternals ∧ testGenesisOk sampleExternals ∧
      regtestGenesisOk sampleExternals :=
  wire_genesisOk sampleExternals sampleExternals_GetHash sampleExternals_BlockMerkleRoot

theorem UpdateVersionBitsParametersFromArgs_unset (X : Externals) (args : ArgsManager)
    (c : Consensus.Params) (hunset : args.IsArgSet "-vbparams" = false) :
    UpdateVersionBitsParametersFromArgs X args c = .ok c := by
  simp [UpdateVersionBitsParametersFromArgs, hunset]

/-- C5. Genesis integrity: with the block hash and the merkle root computed as the double
SHA-256 of the wire format, the block `CreateGenesisBlock` builds from each profile's
literals (time, nonce, bits, version, reward) has the profile's literal genesis hash and
the literal merkle root `07cbcacf...63f7cf`; hence the assertions of the constructors
hold: `CMainParams` and `CTestNetParams` return a profile, and so does `CRegTestParams`
whenever its override step succeeds. -/
theorem genesis_integrity (X : Externals) (hhash : X.GetHash = wireGetHash)
    (hroot : X.BlockMerkleRoot = wireBlockMerkleRoot) :
    (mainGenesisOk X ∧ testGenesisOk X ∧ regtestGenesisOk X) ∧
      (∀ mem, ∃ p, CMainParams X mem = .ok p) ∧
      (∀ mem, ∃ p, CTestNetParams X mem = .ok p) ∧
      (∀ mem args c,
        UpdateVersionBitsParametersFromArgs X args (CRegTestParams.beforeArgs X mem).consensus
          = .ok c → ∃ p, CRegTestParams X mem args = .ok p) := by
  have h := wire_genesisOk X hhash hroot
  exact ⟨h, fun mem => ⟨_, CMainParams_ok X mem h.1⟩, fun mem => ⟨_, CTestNetParams_ok X mem h.2.1⟩,
    fun mem args c hup => ⟨_, CRegTestParams_ok X mem args c h.2.2 hup⟩⟩

/-- Witness of C5 in the sample environment, whose hash functions are the wire hashes. -/
theorem genesis_integrity_witness :
    (mainGenesisOk sampleExternals ∧ testGenesisOk sampleExternals ∧
        regtestGenesisOk sampleExternals) ∧
      (∃ p, CMainParams sampleExternals zeroMem = .ok p) ∧
      (∃ p, CTestNetParams sampleExternals zeroMem = .ok p) ∧
      (∃ p, CRegTestParams sampleExternals zeroMem noArgs = .ok p) := by
  obtain ⟨h, hm, ht, hr⟩ :=
    genesis_integrity sampleExternals sampleExternals_GetHash sampleExternals_BlockMerkleRoot
  exact ⟨h, hm zeroMem, ht zeroMem, hr zeroMem noArgs _
    (UpdateVersionBitsParametersFromArgs_unset _ _ _ (Eq.refl false))⟩

/-! ### The regtest override -/

theorem updateFirstNamed_unknown (X : Externals) (name : String) (a b : Int)
    (hname : ∀ d, name ≠ (X.VersionBitsDeploymentInfo d).name)
    (js : List DeploymentPos) (c : Consensus.Params) :
    updateFirstNamed X name a b js c = (false, c) := by
  induction js with
  | nil => rfl
  | cons j js ih => simp [updateFirstNamed, hname j, ih]

theorem updateFirstNamed_known (X : Externals) (hdist : distinctNames X) (d : DeploymentPos)
    (a b : Int) (c : Consensus.Params) :
    updateFirstNamed X (X.VersionBitsDeploymentInfo d).name a b DeploymentPos.all c
      = (true, UpdateVersionBitsParameters c d a b) := by
  have h1 : ∀ d', (X.VersionBitsDeploymentInfo d).name = (X.VersionBitsDeploymentInfo d').name ↔ d = d' :=
    fun d' => ⟨hdist d d', fun h => by rw [h]⟩
  cases d <;> simp [DeploymentPos.all, updateFirstNamed, h1]

theorem applyDeploymentParam_valid (X : Externals) (hdist : distinctNames X)
    (c : Consensus.Params) (e : String) (d : DeploymentPos) (a b : Int)
    (hn : entryNames X e d) (hv : entryValues X e a b) :
    applyDeploymentParam X c e = .ok (UpdateVersionBitsParameters c d a b) := by
  obtain ⟨name, s, t, hf, hs, ht⟩ := hv
  have hname : name = (X.VersionBitsDeploymentInfo d).name := by
    have := hn
    simp [entryNames, hf] at this
    exact this
  subst hname
  unfold entryFields at hf
  simp [applyDeploymentParam, hf, hs, ht, updateFirstNamed_known X hdist]

theorem entryValues_unique (X : Externals) (e : String) (a b a' b' : Int)
    (h : entryValues X e a b) (h' : entryValues X e a' b') : a = a' ∧ b = b' := by
  obtain ⟨n, s, t, hf, hs, ht⟩ := h
  obtain ⟨n', s', t', hf', hs', ht'⟩ := h'
  rw [hf] at hf'
  simp only [List.cons.injEq, and_true] at hf'
  obtain ⟨-, rfl, rfl⟩ := hf'
  rw [hs] at hs'
  rw [ht] at ht'
  exact ⟨Option.some.inj hs', Option.some.inj ht'⟩

theorem applyDeploymentParams_valid (X : Externals) (hdist : distinctNames X) :
    ∀ (entries : List String) (c : Consensus.Params), (∀ e ∈ entries, validEntry X e) →
      ∃ c', applyDeploymentParams X entries c = .ok c' ∧
        (∀ d, (c'.vDeployments d).bit = (c.vDeployments d).bit) ∧
        (∀ d, (∀ e ∈ entries, ¬ entryNames X e d) → c'.vDeployments d = c.vDeployments d) ∧
        (∀ d pre e post a b, entries = pre ++ e :: post → entryNames X e d →
          entryValues X e a b → (∀ e' ∈ post, ¬ entryNames X e' d) →
          (c'.vDeployments d).nStartTime = a ∧ (c'.vDeployments d).nTimeout = b) := by
  intro entries
  induction entries with
  | nil =>
    intro c _
    refine ⟨c, rfl, fun _ => rfl, fun _ _ => rfl, ?_⟩
    intro d pre e post a b h
    simp at h
  | cons e0 rest ih =>
    intro c hvalid
    obtain ⟨d0, a0, b0, hn0, hv0⟩ := hvalid e0 (List.mem_cons_self _ _)
    obtain ⟨c', hrun, hbit, hkeep, hlast⟩ :=
      ih (UpdateVersionBitsParameters c d0 a0 b0) (fun e he => hvalid e (List.mem_cons_of_mem _ he))
    refine ⟨c', ?_, ?_, ?_, ?_⟩
    · simp [applyDeploymentParams, applyDeploymentParam_valid X hdist c e0 d0 a0 b0 hn0 hv0, hrun]
    · intro d
      rw [hbit d]
      by_cases hd : d = d0 <;> simp [UpdateVersionBitsParameters, hd]
    · intro d hnone
      have hd : d ≠ d0 := by
        rintro rfl
        exact hnone e0 (List.mem_cons_self _ _) hn0
      rw [hkeep d (fun e he => hnone e (List.mem_cons_of_mem _ he))]
      simp [UpdateVersionBitsParameters, hd]
    · intro d pre e post a b hsplit hn hv hpost
      cases pre with
      | nil =>
        simp only [List.nil_append, List.cons.injEq] at hsplit
        obtain ⟨rfl, rfl⟩ := hsplit
        have hd : d = d0 := by
          apply hdist
          have h1 := hn
          have h2 := hn0
          unfold entryNames at h1 h2
          rw [h1] at h2
          exact Option.some.inj h2
        subst hd
        obtain ⟨rfl, rfl⟩ := entryValues_unique X e0 a b a0 b0 hv hv0
        rw [hkeep d hpost]
        simp [UpdateVersionBitsParameters]
      | cons p pre' =>
        simp only [List.cons_append, List.cons.injEq] at hsplit
        obtain ⟨-, hrest⟩ := hsplit
        exact hlast d pre' e post a b hrest hn hv hpost

/-- C1. Regtest override success: when every `-vbparams` entry is a well-formed triple
`name:start:timeout` with a known deployment name and two fields that parse as 64-bit
integers, `UpdateVersionBitsParametersFromArgs` succeeds on the regtest defaults, and
afterwards no deployment's bit has changed, a deployment that no entry names keeps its
regtest default, and a deployment's start time and timeout are those of the last entry
naming it. -/
theorem regtest_override_success (X : Externals) (mem : CChainParams) (args : ArgsManager)
    (hdist : distinctNames X) (hcoh : vbparamsCoherent args)
    (hvalid : ∀ e ∈ args.GetArgs "-vbparams", validEntry X e) :
    ∃ c', UpdateVersionBitsParametersFromArgs X args (CRegTestParams.beforeArgs X mem).consensus
        = .ok c' ∧
      (∀ d, (c'.vDeployments d).bit
          = ((CRegTestParams.beforeArgs X mem).consensus.vDeployments d).bit) ∧
      (∀ d, (∀ e ∈ args.GetArgs "-vbparams", ¬ entryNames X e d) →
          c'.vDeployments d = (CRegTestParams.beforeArgs X mem).consensus.vDeployments d) ∧
      (∀ d pre e post a b, args.GetArgs "-vbparams" = pre ++ e :: post → entryNames X e d →
          entryValues X e a b → (∀ e' ∈ post, ¬ entryNames X e' d) →
          (c'.vDeployments d).nStartTime = a ∧ (c'.vDeployments d).nTimeout = b) := by
  obtain ⟨c', hrun, hbit, hkeep, hlast⟩ :=
    applyDeploymentParams_valid X hdist (args.GetArgs "-vbparams")
      (CRegTestParams.beforeArgs X mem).consensus hvalid
  by_cases hset : args.IsArgSet "-vbparams" = true
  · exact ⟨c', by simp [UpdateVersionBitsParametersFromArgs, hset, hrun], hbit, hkeep, hlast⟩
  · have hempty : args.GetArgs "-vbparams" = [] := by
      by_contra hne
      exact hset (hcoh hne)
    refine ⟨(CRegTestParams.beforeArgs X mem).consensus, ?_, fun _ => rfl, fun _ _ => rfl, ?_⟩
    · simp [UpdateVersionBitsParametersFromArgs, hset]
    · intro d pre e post a b h
      rw [hempty] at h
      simp at h

theorem sampleExternals_distinctNames : distinctNames sampleExternals := by
  intro d d' h
  cases d <;> cases d' <;> first | rfl | exact absurd h (by decide)

theorem vbparamsArgs_coherent (entries : List String) : vbparamsCoherent (vbparamsArgs entries) := by
  intro _
  rfl

/-- Witness of C1 on `["testdummy:100:200"]`: the call succeeds and leaves the test-dummy
deployment with start time 100, timeout 200 and its bit 28, and the other two deployments
at their regtest defaults. -/
theorem regtest_override_success_witness :
    ∃ c', UpdateVersionBitsParametersFromArgs sampleExternals (vbparamsArgs ["testdummy:100:200"])
        (CRegTestParams.beforeArgs sampleExternals zeroMem).consensus = .ok c' ∧
      c'.vDeployments .DEPLOYMENT_TESTDUMMY = { bit := 28, nStartTime := 100, nTimeout := 200 } ∧
      c'.vDeployments .DEPLOYMENT_CSV
        = { bit := 0, nStartTime := 0, nTimeout := sampleExternals.NO_TIMEOUT } ∧
      c'.vDeployments .DEPLOYMENT_SEGWIT
        = { bit := 1, nStartTime := sampleExternals.ALWAYS_ACTIVE,
            nTimeout := sampleExternals.NO_TIMEOUT } := by
  obtain ⟨c', hrun, hbit, hkeep, hlast⟩ :=
    regtest_override_success sampleExternals zeroMem (vbparamsArgs ["testdummy:100:200"])
      sampleExternals_distinctNames (vbparamsArgs_coherent _)
      (by
        intro e he
        have he' : e = "testdummy:100:200" := by simpa [vbparamsArgs] using he
        subst he'
        exact ⟨.DEPLOYMENT_TESTDUMMY, 100, 200, by decide,
          ⟨"testdummy", "100", "200", by decide, by decide, by decide⟩⟩)
  have h1 := hlast .DEPLOYMENT_TESTDUMMY [] "testdummy:100:200" [] 100 200 rfl (by decide)
    ⟨"testdummy", "100", "200", by decide, by decide, by decide⟩ (by simp)
  have h2 := hbit .DEPLOYMENT_TESTDUMMY
  have h3 := hkeep .DEPLOYMENT_CSV (by
    intro e he
    have he' : e = "testdummy:100:200" := by simpa [vbparamsArgs] using he
    subst he'
    decide)
  have h4 := hkeep .DEPLOYMENT_SEGWIT (by
    intro e he
    have he' : e = "testdummy:100:200" := by simpa [vbparamsArgs] using he
    subst he'
    decide)
  refine ⟨c', hrun, ?_, h3, h4⟩
  have h5 : ((CRegTestParams.beforeArgs sampleExternals zeroMem).consensus.vDeployments
      .DEPLOYMENT_TESTDUMMY).bit = 28 := rfl
  rw [h5] at h2
  cases hc : c'.vDeployments .DEPLOYMENT_TESTDUMMY with
  | mk bit s t =>
    rw [hc] at h1 h2
    simp only at h1 h2
    rw [h2, h1.1, h1.2]

theorem updateFirstNamed_found (X : Externals) (d : DeploymentPos) (a b : Int)
    (js : List DeploymentPos) (hd : d ∈ js) (c : Consensus.Params) :
    (updateFirstNamed X (X.VersionBitsDeploymentInfo d).name a b js c).1 = true := by
  induction js with
  | nil => simp at hd
  | cons j js ih =>
    unfold updateFirstNamed
    by_cases h : (X.VersionBitsDeploymentInfo d).name = (X.VersionBitsDeploymentInfo j).name
    · rw [if_pos h]
    · rw [if_neg h]
      rcases List.mem_cons.1 hd with hj | hj
      · rw [hj] at h
        exact absurd rfl h
      · exact ih hj

theorem applyDeploymentParam_valid_ok (X : Externals) (c : Consensus.Params) (e : String)
    (hv : validEntry X e) : ∃ c', applyDeploymentParam X c e = .ok c' := by
  obtain ⟨d, a, b, hn, name, s, t, hf, hs, ht⟩ := hv
  have hname : name = (X.VersionBitsDeploymentInfo d).name := by
    have := hn
    simp [entryNames, hf] at this
    exact this
  subst hname
  unfold entryFields at hf
  have hfound := updateFirstNamed_found X d a b DeploymentPos.all
    (by cases d <;> simp [DeploymentPos.all]) c
  rcases hu : updateFirstNamed X (X.VersionBitsDeploymentInfo d).name a b DeploymentPos.all c
    with ⟨found, updated⟩
  rw [hu] at hfound
  simp only at hfound
  subst hfound
  exact ⟨updated, by simp [applyDeploymentParam, hf, hs, ht, hu]⟩

theorem applyDeploymentParams_fails (X : Externals) (e : String)
    (post : List String) (err : Failure)
    (hfail : ∀ c, applyDeploymentParam X c e = .error err) :
    ∀ (pre : List String) (c : Consensus.Params), (∀ e' ∈ pre, validEntry X e') →
      applyDeploymentParams X (pre ++ e :: post) c = .error err := by
  intro pre
  induction pre with
  | nil =>
    intro c _
    simp [applyDeploymentParams, hfail c]
  | cons e0 rest ih =>
    intro c hvalid
    obtain ⟨c1, hc1⟩ := applyDeploymentParam_valid_ok X c e0 (hvalid e0 (List.mem_cons_self _ _))
    simp [applyDeploymentParams, hc1, ih _ (fun e' he => hvalid e' (List.mem_cons_of_mem _ he))]

theorem CRegTestParams_update_fails (X : Externals) (mem : CChainParams) (args : ArgsManager)
    (err : Failure)
    (h : UpdateVersionBitsParametersFromArgs X args (CRegTestParams.beforeArgs X mem).consensus
      = .error err) :
    CRegTestParams X mem args = .error err := by
  simp only [CRegTestParams, h]
  rfl

theorem regtest_entry_fails (X : Externals) (mem : CChainParams) (args : ArgsManager)
    (pre : List String) (e : String) (post : List String) (err : Failure)
    (hset : args.IsArgSet "-vbparams" = true)
    (hargs : args.GetArgs "-vbparams" = pre ++ e :: post)
    (hpre : ∀ e' ∈ pre, validEntry X e')
    (hfail : ∀ c, applyDeploymentParam X c e = .error err) :
    CRegTestParams X mem args = .error err := by
  apply CRegTestParams_update_fails
  simp [UpdateVersionBitsParametersFromArgs, hset, hargs,
    applyDeploymentParams_fails X e post err hfail pre _ hpre]

/-- C2. Regtest override with an unknown name: an entry with exactly three fields whose
second and third fields parse as 64-bit integers and whose first field is no deployment
name makes the construction of the regtest profile fail with the "Invalid deployment"
error carrying that name, so no profile is produced. The entry may follow any number of
well-formed entries and be followed by anything. -/
theorem regtest_override_unknown_name (X : Externals) (mem : CChainParams) (args : ArgsManager)
    (pre : List String) (e : String) (post : List String) (name s t : String) (a b : Int)
    (hset : args.IsArgSet "-vbparams" = true)
    (hargs : args.GetArgs "-vbparams" = pre ++ e :: post)
    (hpre : ∀ e' ∈ pre, validEntry X e')
    (hfields : entryFields e = [name, s, t])
    (hs : X.ParseInt64 s = some a) (ht : X.ParseInt64 t = some b)
    (hunknown : ∀ d, name ≠ (X.VersionBitsDeploymentInfo d).name) :
    CRegTestParams X mem args
      = .error (.runtime_error ("Invalid deployment (" ++ name ++ ")")) := by
  apply regtest_entry_fails X mem args pre e post _ hset hargs hpre
  intro c
  unfold entryFields at hfields
  simp [applyDeploymentParam, hfields, hs, ht, updateFirstNamed_unknown X name a b hunknown]

/-- Witness of C2 on `["nosuchbit:1:2"]`. -/
theorem regtest_override_unknown_name_witness :
    CRegTestParams sampleExternals zeroMem (vbparamsArgs ["nosuchbit:1:2"])
      = .error (.runtime_error "Invalid deployment (nosuchbit)") :=
  regtest_override_unknown_name sampleExternals zeroMem (vbparamsArgs ["nosuchbit:1:2"])
    [] "nosuchbit:1:2" [] "nosuchbit" "1" "2" 1 2 rfl rfl (by simp)
    (by decide) (by decide) (by decide) (by intro d; cases d <;> decide)

/-- C3. Regtest override with a non-integer value: an entry with exactly three fields
whose start field or timeout field does not parse as a 64-bit integer makes the
construction of the regtest profile fail with a parse error, whatever the name field is:
"Invalid nStartTime" with the start field when that one does not parse, otherwise
"Invalid nTimeout" with the timeout field. -/
theorem regtest_override_non_integer (X : Externals) (mem : CChainParams) (args : ArgsManager)
    (pre : List String) (e : String) (post : List String) (name s t : String)
    (hset : args.IsArgSet "-vbparams" = true)
    (hargs : args.GetArgs "-vbparams" = pre ++ e :: post)
    (hpre : ∀ e' ∈ pre, validEntry X e')
    (hfields : entryFields e = [name, s, t])
    (hbad : X.ParseInt64 s = none ∨ X.ParseInt64 t = none) :
    CRegTestParams X mem args
      = .error (.runtime_error
          (if X.ParseInt64 s = none then "Invalid nStartTime (" ++ s ++ ")"
           else "Invalid nTimeout (" ++ t ++ ")")) := by
  apply regtest_entry_fails X mem args pre e post _ hset hargs hpre
  intro c
  unfold entryFields at hfields
  cases hs : X.ParseInt64 s with
  | none => simp [applyDeploymentParam, hfields, hs]
  | some a =>
    have ht : X.ParseInt64 t = none := by
      rcases hbad with h | h
      · rw [hs] at h
        exact absurd h (by simp)
      · exact h
    simp [applyDeploymentParam, hfields, hs, ht]

/-- Witness of C3 on `["testdummy:abc:2"]`. -/
theorem regtest_override_non_integer_witness :
    CRegTestParams sampleExternals zeroMem (vbparamsArgs ["testdummy:abc:2"])
      = .error (.runtime_error "Invalid nStartTime (abc)") :=
  regtest_override_non_integer sampleExternals zeroMem (vbparamsArgs ["testdummy:abc:2"])
    [] "testdummy:abc:2" [] "testdummy" "abc" "2" rfl rfl (by simp)
    (by decide) (Or.inl (by decide))

/-- C4. Regtest override with a malformed triple: an entry that does not split on `:`
into exactly three fields, after well-formed entries only, makes the construction of the
regtest profile fail with the "Version bits parameters malformed" error; and when
`-vbparams` is not set, the override step returns the regtest defaults unchanged, so a
construction whose genesis assertions pass yields a profile with the default deployment
table. -/
theorem regtest_override_malformed (X : Externals) (mem : CChainParams) (args : ArgsManager) :
    (∀ pre e post, args.IsArgSet "-vbparams" = true →
        args.GetArgs "-vbparams" = pre ++ e :: post →
        (∀ e' ∈ pre, validEntry X e') → (entryFields e).length ≠ 3 →
        CRegTestParams X mem args = .error (.runtime_error
          "Version bits parameters malformed, expecting deployment:start:end")) ∧
      (args.IsArgSet "-vbparams" = false →
        UpdateVersionBitsParametersFromArgs X args (CRegTestParams.beforeArgs X mem).consensus
            = .ok (CRegTestParams.beforeArgs X mem).consensus ∧
          (regtestGenesisOk X → ∃ p, CRegTestParams X mem args = .ok p ∧
            p.consensus.vDeployments = (CRegTestParams.beforeArgs X mem).consensus.vDeployments)) := by
  constructor
  · intro pre e post hset hargs hpre hlen
    apply regtest_entry_fails X mem args pre e post _ hset hargs hpre
    intro c
    unfold entryFields at hlen
    simp [applyDeploymentParam, hlen]
  · intro hunset
    have hup : UpdateVersionBitsParametersFromArgs X args
        (CRegTestParams.beforeArgs X mem).consensus
          = .ok (CRegTestParams.beforeArgs X mem).consensus := by
      simp [UpdateVersionBitsParametersFromArgs, hunset]
    refine ⟨hup, fun hg => ⟨_, CRegTestParams_ok X mem args _ hg hup, rfl⟩⟩


/-- Witness of C4: `"testdummy:100"` after a well-formed entry, and `"testdummy:1:2:3"`,
each fail the construction as malformed; with no argument set the construction succeeds
and the test-dummy deployment keeps start time 0. -/
theorem regtest_override_malformed_witness :
    CRegTestParams sampleExternals zeroMem (vbparamsArgs ["csv:5:6", "testdummy:100"])
        = .error (.runtime_error
            "Version bits parameters malformed, expecting deployment:start:end") ∧
      CRegTestParams sampleExternals zeroMem (vbparamsArgs ["testdummy:1:2:3"])
        = .error (.runtime_error
            "Version bits parameters malformed, expecting deployment:start:end") ∧
      (∃ p, CRegTestParams sampleExternals zeroMem noArgs = .ok p ∧
        (p.consensus.vDeployments .DEPLOYMENT_TESTDUMMY).nStartTime = 0) := by
  refine ⟨?_, ?_, ?_⟩
  · exact (regtest_override_malformed sampleExternals zeroMem
      (vbparamsArgs ["csv:5:6", "testdummy:100"])).1 ["csv:5:6"] "testdummy:100" [] rfl rfl
      (by
        intro e he
        have he' : e = "csv:5:6" := by simpa using he
        subst he'
        exact ⟨.DEPLOYMENT_CSV, 5, 6, by decide, ⟨"csv", "5", "6", by decide, by decide, by decide⟩⟩)
      (by decide)
  · exact (regtest_override_malformed sampleExternals zeroMem
      (vbparamsArgs ["testdummy:1:2:3"])).1 [] "testdummy:1:2:3" [] rfl rfl (by simp) (by decide)
  · obtain ⟨p, hp, hv⟩ := ((regtest_override_malformed sampleExternals zeroMem noArgs).2 rfl).2
      sampleExternals_genesisOk.2.2
    exact ⟨p, hp, by rw [hv]; rfl⟩

/-! ### What a successful construction returns -/

theorem CMainParams_inv (X : Externals) (mem p : CChainParams) (h : CMainParams X mem = .ok p) :
    mainGenesisOk X ∧
      p = CMainParams.afterGenesis (setGenesis X (CMainParams.beforeGenesis X mem)
        (CreateGenesisBlock X 1574334000 27296764 0x1e0ffff0 1 (0 * X.COIN))) := by
  by_cases h1 : X.GetHash (CreateGenesisBlock X 1574334000 27296764 0x1e0ffff0 1 (0 * X.COIN))
      = uint256S "0x0000025289d6b03cbda4950e825cd865185f34fbb3e098295534b63d78beba15"
  · by_cases h2 : (CreateGenesisBlock X 1574334000 27296764 0x1e0ffff0 1 (0 * X.COIN)).hashMerkleRoot
        = uint256S "0x07cbcacfc822fba6bbeb05312258fa43b96a68fc310af8dfcec604591763f7cf"
    · refine ⟨⟨h1, h2⟩, ?_⟩
      rw [CMainParams_ok X mem ⟨h1, h2⟩] at h
      exact (Except.ok.inj h).symm
    · exfalso
      unfold CMainParams at h
      simp only [setGenesis, h1, h2, assert, beq_self_eq_true, if_true, beq_iff_eq, if_false] at h
      exact absurd h (by intro h'; cases h')
  · exfalso
    unfold CMainParams at h
    simp only [setGenesis, h1, assert, beq_iff_eq, if_false] at h
    exact absurd h (by intro h'; cases h')

theorem CTestNetParams_inv (X : Externals) (mem p : CChainParams)
    (h : CTestNetParams X mem = .ok p) :
    testGenesisOk X ∧
      p = CTestNetParams.afterGenesis (setGenesis X (CTestNetParams.beforeGenesis X mem)
        (CreateGenesisBlock X 1565017975 21212214 0x1e0ffff0 1 (0 * X.COIN))) := by
  by_cases h1 : X.GetHash (CreateGenesisBlock X 1565017975 21212214 0x1e0ffff0 1 (0 * X.COIN))
      = uint256S "0x00000546a6b03a54ae05f94119e37c55202e90a953058c35364d112d41ded06a"
  · by_cases h2 : (CreateGenesisBlock X 1565017975 21212214 0x1e0ffff0 1 (0 * X.COIN)).hashMerkleRoot
        = uint256S "0x07cbcacfc822fba6bbeb05312258fa43b96a68fc310af8dfcec604591763f7cf"
    · refine ⟨⟨h1, h2⟩, ?_⟩
      rw [CTestNetParams_ok X mem ⟨h1, h2⟩] at h
      exact (Except.ok.inj h).symm
    · exfalso
      unfold CTestNetParams at h
      simp only [setGenesis, h1, h2, assert, beq_self_eq_true, if_true, beq_iff_eq, if_false] at h
      exact absurd h (by intro h'; cases h')
  · exfalso
    unfold CTestNetParams at h
    simp only [setGenesis, h1, assert, beq_iff_eq, if_false] at h
    exact absurd h (by intro h'; cases h')

theorem CRegTestParams_inv (X : Externals) (mem p : CChainParams) (args : ArgsManager)
    (h : CRegTestParams X mem args = .ok p) :
    ∃ c, UpdateVersionBitsParametersFromArgs X args (CRegTestParams.beforeArgs X mem).consensus
        = .ok c ∧ regtestGenesisOk X ∧
      p = CRegTestParams.afterGenesis (setGenesis X
        { CRegTestParams.beforeArgs X mem with consensus := c }
        (CreateGenesisBlock X 1565017975 20542302 0x207fffff 1 (0 * X.COIN))) := by
  cases hup : UpdateVersionBitsParametersFromArgs X args (CRegTestParams.beforeArgs X mem).consensus with
  | error e =>
    rw [CRegTestParams_update_fails X mem args e hup] at h
    cases h
  | ok c =>
    refine ⟨c, rfl, ?_⟩
    by_cases h1 : X.GetHash (CreateGenesisBlock X 1565017975 20542302 0x207fffff 1 (0 * X.COIN))
        = uint256S "0x100a3271b95d1a817101bcbd7045ad14c9799cb34e1cb6071973c8932ae48b6a"
    · by_cases h2 : (CreateGenesisBlock X 1565017975 20542302 0x207fffff 1 (0 * X.COIN)).hashMerkleRoot
          = uint256S "0x07cbcacfc822fba6bbeb05312258fa43b96a68fc310af8dfcec604591763f7cf"
      · refine ⟨⟨h1, h2⟩, ?_⟩
        rw [CRegTestParams_ok X mem args c ⟨h1, h2⟩ hup] at h
        exact (Except.ok.inj h).symm
      · exfalso
        unfold CRegTestParams at h
        simp only [hup, setGenesis, h1, h2, assert, beq_self_eq_true, if_true, beq_iff_eq,
          if_false] at h
        exact absurd h (by intro h'; cases h')
    · exfalso
      unfold CRegTestParams at h
      simp only [hup, setGenesis, h1, assert, beq_iff_eq, if_false] at h
      exact absurd h (by intro h'; cases h')

theorem CreateChainParams_networkID (X : Externals) (mem p : CChainParams) (gArgs : ArgsManager)
    (chain : String) (h : CreateChainParams X mem gArgs chain = .ok p) :
    p.strNetworkID = chain := by
  unfold CreateChainParams at h
  by_cases h1 : chain = CBaseChainParams.MAIN
  · rw [if_pos h1] at h
    rw [(CMainParams_inv X mem p h).2, h1]
    simp only [CMainParams.afterGenesis, setGenesis, CMainParams.beforeGenesis,
      CBaseChainParams.MAIN]
  · rw [if_neg h1] at h
    by_cases h2 : chain = CBaseChainParams.TESTNET
    · rw [if_pos h2] at h
      rw [(CTestNetParams_inv X mem p h).2, h2]
      simp only [CTestNetParams.afterGenesis, setGenesis, CTestNetParams.beforeGenesis,
        CBaseChainParams.TESTNET]
    · rw [if_neg h2] at h
      by_cases h3 : chain = CBaseChainParams.REGTEST
      · rw [if_pos h3] at h
        obtain ⟨c, -, -, hp⟩ := CRegTestParams_inv X mem p gArgs h
        rw [hp, h3]
        simp only [CRegTestParams.afterGenesis, setGenesis, CRegTestParams.beforeArgs,
          CBaseChainParams.REGTEST]
      · rw [if_neg h3] at h
        cases h

/-! ### Selection -/

theorem SelectParams_of_create_error (X : Externals) (mem : CChainParams) (network : String)
    (g : Globals) (e : Failure)
    (hcreate : ∀ a, CreateChainParams X mem a network = .error e) :
    (SelectParams X mem network g).2.globalChainParams = g.globalChainParams ∧
      ∃ err, (SelectParams X mem network g).1 = .error err ∧
        (err = e ∨ (X.SelectBaseParams network g.gArgs).1 = .error err) := by
  unfold SelectParams
  rcases hb : X.SelectBaseParams network g.gArgs with ⟨r, a⟩
  cases r with
  | error e' => exact ⟨rfl, e', rfl, Or.inr rfl⟩
  | ok u => simp [hcreate a]

theorem SelectParams_error_keeps (X : Externals) (mem : CChainParams) (network : String)
    (g : Globals) (err : Failure) (h : (SelectParams X mem network g).1 = .error err) :
    (SelectParams X mem network g).2.globalChainParams = g.globalChainParams := by
  unfold SelectParams at h ⊢
  rcases hb : X.SelectBaseParams network g.gArgs with ⟨r, a⟩
  rw [hb] at h
  cases r with
  | error e' => rfl
  | ok u =>
    cases hc : CreateChainParams X mem a network with
    | error e' => simp [hc]
    | ok p => simp [hc] at h

theorem SelectParams_ok_installs (X : Externals) (mem : CChainParams) (network : String)
    (g : Globals) (h : (SelectParams X mem network g).1 = .ok ()) :
    ∃ p, (SelectParams X mem network g).2.globalChainParams = some p ∧
      p.strNetworkID = network ∧
      CreateChainParams X mem (X.SelectBaseParams network g.gArgs).2 network = .ok p := by
  unfold SelectParams at h ⊢
  rcases hb : X.SelectBaseParams network g.gArgs with ⟨r, a⟩
  rw [hb] at h
  cases r with
  | error e' => simp at h
  | ok u =>
    cases hc : CreateChainParams X mem a network with
    | error e' => simp [hc] at h
    | ok p =>
      refine ⟨p, ?_, CreateChainParams_networkID X mem p a network hc, rfl⟩
      simp [hc]

theorem selectAll_append (X : Externals) (pre post : List (CChainParams × String)) (g : Globals) :
    selectAll X (pre ++ post) g = selectAll X post (selectAll X pre g) := by
  induction pre generalizing g with
  | nil => rfl
  | cons c rest ih =>
    obtain ⟨mem, network⟩ := c
    exact ih (SelectParams X mem network g).2

theorem selectAll_failing_keeps (X : Externals) :
    ∀ (calls : List (CChainParams × String)) (g : Globals),
      (∀ mid c rest, calls = mid ++ c :: rest →
        ∃ err, (SelectParams X c.1 c.2 (selectAll X mid g)).1 = .error err) →
      (selectAll X calls g).globalChainParams = g.globalChainParams := by
  intro calls
  induction calls with
  | nil =>
    intro g _
    rfl
  | cons c rest ih =>
    intro g hfail
    obtain ⟨mem, network⟩ := c
    obtain ⟨err, herr⟩ := hfail [] (mem, network) rest rfl
    simp only [selectAll] at herr ⊢
    rw [ih (SelectParams X mem network g).2 (fun mid c' rest' hsplit => by
      have := hfail ((mem, network) :: mid) c' rest' (by rw [hsplit]; rfl)
      simpa only [selectAll] using this)]
    exact SelectParams_error_keeps X mem network g err herr

/-- C6. Unknown network: for a network name other than "main", "test" and "regtest",
`CreateChainParams` fails with the unknown-chain error and `SelectParams` fails (with that
error unless `SelectBaseParams` already failed) and installs no profile; for "main" and
"test" `CreateChainParams` returns a profile of that name once the genesis assertions of
the constructor hold. -/
theorem unknown_network (X : Externals) (mem : CChainParams) (gArgs : ArgsManager) (chain : String)
    (hchain : chain ≠ "main" ∧ chain ≠ "test" ∧ chain ≠ "regtest") :
    CreateChainParams X mem gArgs chain
        = .error (.runtime_error ("CreateChainParams: Unknown chain " ++ chain ++ ".")) ∧
      (∀ g, (SelectParams X mem chain g).2.globalChainParams = g.globalChainParams ∧
        ∃ err, (SelectParams X mem chain g).1 = .error err ∧
          (err = .runtime_error ("CreateChainParams: Unknown chain " ++ chain ++ ".") ∨
            (X.SelectBaseParams chain g.gArgs).1 = .error err)) ∧
      (mainGenesisOk X →
        ∃ p, CreateChainParams X mem gArgs "main" = .ok p ∧ p.strNetworkID = "main") ∧
      (testGenesisOk X →
        ∃ p, CreateChainParams X mem gArgs "test" = .ok p ∧ p.strNetworkID = "test") := by
  obtain ⟨h1, h2, h3⟩ := hchain
  have hcreate : ∀ a, CreateChainParams X mem a chain
      = .error (.runtime_error ("CreateChainParams: Unknown chain " ++ chain ++ ".")) := by
    intro a
    simp [CreateChainParams, CBaseChainParams.MAIN, CBaseChainParams.TESTNET,
      CBaseChainParams.REGTEST, h1, h2, h3]
  refine ⟨hcreate gArgs, fun g => SelectParams_of_create_error X mem chain g _ hcreate, ?_, ?_⟩
  · intro hg
    have hc : CreateChainParams X mem gArgs "main" = CMainParams X mem := by
      simp [CreateChainParams, CBaseChainParams.MAIN]
    rw [hc, CMainParams_ok X mem hg]
    exact ⟨_, rfl, by
      simp only [CMainParams.afterGenesis, setGenesis, CMainParams.beforeGenesis]⟩
  · intro hg
    have hc : CreateChainParams X mem gArgs "test" = CTestNetParams X mem := by
      simp [CreateChainParams, CBaseChainParams.MAIN, CBaseChainParams.TESTNET]
    rw [hc, CTestNetParams_ok X mem hg]
    exact ⟨_, rfl, by
      simp only [CTestNetParams.afterGenesis, setGenesis, CTestNetParams.beforeGenesis]⟩

/-- Witness of C6 in the sample environment: the name "signet" is rejected by
`CreateChainParams`, `SelectParams("signet")` fails and installs nothing, and "main" and
"test" are accepted. -/
theorem unknown_network_witness :
    CreateChainParams sampleExternals zeroMem noArgs "signet"
        = .error (.runtime_error "CreateChainParams: Unknown chain signet.") ∧
      (SelectParams sampleExternals zeroMem "signet" (Globals.atStart noArgs)).2.globalChainParams.isNone
        = true ∧
      (∃ p, CreateChainParams sampleExternals zeroMem noArgs "main" = .ok p ∧
        p.strNetworkID = "main") ∧
      (∃ p, CreateChainParams sampleExternals zeroMem noArgs "test" = .ok p ∧
        p.strNetworkID = "test") := by
  obtain ⟨h1, h2, h3, h4⟩ :=
    unknown_network sampleExternals zeroMem noArgs "signet" (by decide)
  refine ⟨h1, ?_, h3 sampleExternals_genesisOk.1, h4 sampleExternals_genesisOk.2.1⟩
  rw [(h2 (Globals.atStart noArgs)).1]
  rfl

/-- C7. Selector lifecycle. At process start `Params()` fails its assertion, and it still
does after any sequence of `SelectParams` calls that all failed. After a sequence in
which the call `SelectParams(name)` succeeded and every later call failed, `Params()`
returns the profile that call created, and its network identifier is `name`; a later
successful selection therefore replaces an earlier one. -/
theorem selector_lifecycle (X : Externals) (gArgs : ArgsManager) :
    Params (Globals.atStart gArgs) = .error (.assertion "globalChainParams") ∧
      (∀ calls : List (CChainParams × String),
        (∀ mid c rest, calls = mid ++ c :: rest →
          ∃ err, (SelectParams X c.1 c.2 (selectAll X mid (Globals.atStart gArgs))).1
            = .error err) →
        Params (selectAll X calls (Globals.atStart gArgs))
          = .error (.assertion "globalChainParams")) ∧
      (∀ (pre : List (CChainParams × String)) (mem : CChainParams) (name : String)
          (post : List (CChainParams × String)),
        (SelectParams X mem name (selectAll X pre (Globals.atStart gArgs))).1 = .ok () →
        (∀ mid c rest, post = mid ++ c :: rest →
          ∃ err, (SelectParams X c.1 c.2
            (selectAll X (pre ++ (mem, name) :: mid) (Globals.atStart gArgs))).1 = .error err) →
        ∃ p, Params (selectAll X (pre ++ (mem, name) :: post) (Globals.atStart gArgs)) = .ok p ∧
          p.strNetworkID = name ∧
          (SelectParams X mem name (selectAll X pre (Globals.atStart gArgs))).2.globalChainParams
            = some p) := by
  refine ⟨rfl, ?_, ?_⟩
  · intro calls hfail
    have h := selectAll_failing_keeps X calls (Globals.atStart gArgs) hfail
    unfold Params
    rw [h]
    rfl
  · intro pre mem name post hok hfail
    obtain ⟨p, hp, hid, -⟩ :=
      SelectParams_ok_installs X mem name (selectAll X pre (Globals.atStart gArgs)) hok
    refine ⟨p, ?_, hid, hp⟩
    have hstep : ∀ l, selectAll X (pre ++ (mem, name) :: l) (Globals.atStart gArgs)
        = selectAll X l (SelectParams X mem name (selectAll X pre (Globals.atStart gArgs))).2 := by
      intro l
      rw [selectAll_append]
      rfl
    have hkeep := selectAll_failing_keeps X post
      (SelectParams X mem name (selectAll X pre (Globals.atStart gArgs))).2
      (fun mid c rest hsplit => by
        have := hfail mid c rest hsplit
        rw [hstep mid] at this
        exact this)
    unfold Params
    rw [hstep post, hkeep, hp]

theorem singleton_split {α : Type} (x c : α) (mid rest : List α) (h : [x] = mid ++ c :: rest) :
    mid = [] ∧ c = x := by
  cases mid with
  | nil =>
    simp only [List.nil_append, List.cons.injEq] at h
    exact ⟨rfl, h.1.symm⟩
  | cons m ms => simp at h

theorem sample_select_ok (mem : CChainParams) (name : String) (g : Globals)
    (hname : name = "main" ∨ name = "test") :
    (SelectParams sampleExternals mem name g).1 = .ok () := by
  have hbase : sampleExternals.SelectBaseParams name g.gArgs = (.ok (), g.gArgs) := by
    rcases hname with h | h <;> subst h <;> rfl
  have hcreate : ∃ p, CreateChainParams sampleExternals mem g.gArgs name = .ok p := by
    rcases hname with h | h
    · subst h
      exact ⟨_, (show CreateChainParams sampleExternals mem g.gArgs "main"
        = CMainParams sampleExternals mem by
          simp [CreateChainParams, CBaseChainParams.MAIN]).trans
        (CMainParams_ok sampleExternals mem sampleExternals_genesisOk.1)⟩
    · subst h
      exact ⟨_, (show CreateChainParams sampleExternals mem g.gArgs "test"
        = CTestNetParams sampleExternals mem by
          simp [CreateChainParams, CBaseChainParams.MAIN, CBaseChainParams.TESTNET]).trans
        (CTestNetParams_ok sampleExternals mem sampleExternals_genesisOk.2.1)⟩
  obtain ⟨p, hp⟩ := hcreate
  unfold SelectParams
  rw [hbase]
  simp only [hp]

theorem sample_select_unknown (mem : CChainParams) (g : Globals) :
    ∃ err, (SelectParams sampleExternals mem "signet" g).1 = .error err := by
  unfold SelectParams
  have hbase : sampleExternals.SelectBaseParams "signet" g.gArgs
      = (.error (.runtime_error "CreateBaseChainParams: Unknown chain signet."), g.gArgs) := by
    rfl
  rw [hbase]
  exact ⟨_, rfl⟩

/-- Witness of C7 in the sample environment: after `SelectParams("test")`, `Params()` has
network id "test"; a failed `SelectParams("signet")` afterwards changes nothing; and after
`SelectParams("test")` then `SelectParams("main")` the network id is "main". -/
theorem selector_lifecycle_witness :
    (∃ p, Params (selectAll sampleExternals [(zeroMem, "test")] (Globals.atStart noArgs)) = .ok p ∧
        p.strNetworkID = "test") ∧
      (∃ p, Params (selectAll sampleExternals [(zeroMem, "test"), (zeroMem, "signet")]
          (Globals.atStart noArgs)) = .ok p ∧ p.strNetworkID = "test") ∧
      (∃ p, Params (selectAll sampleExternals [(zeroMem, "test"), (zeroMem, "main")]
          (Globals.atStart noArgs)) = .ok p ∧ p.strNetworkID = "main") ∧
      Params (selectAll sampleExternals [(zeroMem, "signet")] (Globals.atStart noArgs))
        = .error (.assertion "globalChainParams") := by
  obtain ⟨-, hnone, hlast⟩ := selector_lifecycle sampleExternals noArgs
  refine ⟨?_, ?_, ?_, ?_⟩
  · obtain ⟨p, hp, hid, -⟩ := hlast [] zeroMem "test" []
      (sample_select_ok zeroMem "test" _ (Or.inr rfl))
      (by intro mid c rest h; simp at h)
    exact ⟨p, hp, hid⟩
  · obtain ⟨p, hp, hid, -⟩ := hlast [] zeroMem "test" [(zeroMem, "signet")]
      (sample_select_ok zeroMem "test" _ (Or.inr rfl))
      (by
        intro mid c rest h
        have hmid := singleton_split (zeroMem, "signet") c mid rest h
        obtain ⟨rfl, rfl⟩ := hmid
        exact sample_select_unknown zeroMem _)
    exact ⟨p, hp, hid⟩
  · obtain ⟨p, hp, hid, -⟩ := hlast [(zeroMem, "test")] zeroMem "main" []
      (sample_select_ok zeroMem "main" _ (Or.inl rfl))
      (by intro mid c rest h; simp at h)
    exact ⟨p, hp, hid⟩
  · apply hnone
    intro mid c rest h
    have hmid := singleton_split (zeroMem, "signet") c mid rest h
    obtain ⟨rfl, rfl⟩ := hmid
    exact sample_select_unknown zeroMem _

/-! ### Tables of the profiles -/

theorem isStrictlyIncreasing_iff (heights : List Int) :
    isStrictlyIncreasing heights = true ↔ strictlyIncreasing heights := by
  induction heights with
  | nil =>
    simp only [isStrictlyIncreasing, true_iff]
    intro i h
    simp at h
  | cons a rest ih =>
    cases rest with
    | nil =>
      simp only [isStrictlyIncreasing, true_iff]
      intro i h
      simp at h
    | cons b rest =>
      simp only [isStrictlyIncreasing, Bool.and_eq_true, decide_eq_true_eq, ih]
      constructor
      · rintro ⟨hab, hrest⟩ i h
        cases i with
        | zero => exact hab
        | succ j => exact hrest j (by simpa using h)
      · intro hall
        refine ⟨hall 0 (by simp), fun i h => ?_⟩
        exact hall (i + 1) (by simpa using h)

theorem sameExceptDeployments_refl (c : Consensus.Params) : sameExceptDeployments c c := rfl

theorem sameExceptDeployments_trans (a b c : Consensus.Params)
    (hab : sameExceptDeployments a b) (hbc : sameExceptDeployments b c) :
    sameExceptDeployments a c := by
  unfold sameExceptDeployments at *
  rw [hbc, hab]

theorem updateFirstNamed_same (X : Externals) (name : String) (a b : Int)
    (js : List DeploymentPos) (c : Consensus.Params) :
    sameExceptDeployments c (updateFirstNamed X name a b js c).2 := by
  induction js with
  | nil => rfl
  | cons j js ih =>
    unfold updateFirstNamed
    by_cases h : name = (X.VersionBitsDeploymentInfo j).name
    · rw [if_pos h]
      rfl
    · rw [if_neg h]
      exact ih

theorem applyDeploymentParam_same (X : Externals) (c c' : Consensus.Params) (e : String)
    (h : applyDeploymentParam X c e = .ok c') : sameExceptDeployments c c' := by
  unfold applyDeploymentParam at h
  generalize boost_split e (is_any_of ":") = v at h
  dsimp only at h
  split at h
  · cases h
  · split at h
    · cases h
    · split at h
      · cases h
      · rename_i _ nStartTime _ _ nTimeout _
        have hsame := updateFirstNamed_same X (v.getD 0 "") nStartTime nTimeout
          DeploymentPos.all c
        split at h
        · rename_i updated hu
          rw [hu] at hsame
          cases h
          exact hsame
        · cases h

theorem applyDeploymentParams_same (X : Externals) :
    ∀ (entries : List String) (c c' : Consensus.Params),
      applyDeploymentParams X entries c = .ok c' → sameExceptDeployments c c' := by
  intro entries
  induction entries with
  | nil =>
    intro c c' h
    simp only [applyDeploymentParams, Except.ok.injEq] at h
    rw [← h]
    rfl
  | cons e rest ih =>
    intro c c' h
    unfold applyDeploymentParams at h
    cases he : applyDeploymentParam X c e with
    | error err => simp [he] at h
    | ok c1 =>
      simp only [he] at h
      exact sameExceptDeployments_trans c c1 c' (applyDeploymentParam_same X c c1 e he)
        (ih c1 c' h)

theorem UpdateVersionBitsParametersFromArgs_same (X : Externals) (args : ArgsManager)
    (c c' : Consensus.Params) (h : UpdateVersionBitsParametersFromArgs X args c = .ok c') :
    sameExceptDeployments c c' := by
  unfold UpdateVersionBitsParametersFromArgs at h
  by_cases hset : args.IsArgSet "-vbparams" = true
  · simp only [hset, Bool.not_true, Bool.false_eq_true, if_false] at h
    exact applyDeploymentParams_same X _ c c' h
  · simp only [hset, Bool.not_eq_true] at h
    simp only [Bool.not_eq_true] at hset
    simp only [hset, Bool.not_false, if_true, Except.ok.injEq] at h
    rw [← h]
    rfl

theorem CRegTestParams_inv_tables (X : Externals) (mem p : CChainParams) (args : ArgsManager)
    (h : CRegTestParams X mem args = .ok p) :
    p.consensus.heightDefinitions = [(200, 1 * X.COIN)] ∧
      p.consensus.minAgeDefinitions = [] ∧ p.consensus.maxAgeDefinitions = [] ∧
      p.consensus.weightDefinitions = [] ∧
      p.consensus.llmqs = [(.LLMQ_5_60, llmq5_60), (.LLMQ_50_60, llmq50_60)] ∧
      p.consensus.llmqChainLocks = .LLMQ_5_60 ∧ p.consensus.llmqForInstantSend = .LLMQ_5_60 ∧
      p.checkpointData.mapCheckpoints = [] := by
  obtain ⟨c, hup, -, hp⟩ := CRegTestParams_inv X mem p args h
  have hsame := UpdateVersionBitsParametersFromArgs_same X args _ c hup
  unfold sameExceptDeployments at hsame
  rw [hp, hsame]
  simp [CRegTestParams.afterGenesis, setGenesis, CRegTestParams.beforeArgs, CChainParams.fresh,
    mapAssign]

theorem stepFunctionOk_of_check (defs : StepDefinitions) (hne : defs ≠ [])
    (hinc : isStrictlyIncreasing (defs.map Prod.fst) = true) : stepFunctionOk defs :=
  ⟨hne, (isStrictlyIncreasing_iff _).1 hinc⟩

/-- C8 (as amended). Step functions: the main constructor sets each of the four
height-indexed step functions to a non-empty list with strictly increasing activation
heights; the test and regtest constructors set only `heightDefinitions`, to one pair at
height 200, which is such a list, and leave `minAgeDefinitions`, `maxAgeDefinitions` and
`weightDefinitions` empty. -/
theorem step_functions_as_set (X : Externals) (mem : CChainParams) (args : ArgsManager) :
    (∀ p, CMainParams X mem = .ok p → allStepFunctionsOk p.consensus) ∧
      (∀ p, CTestNetParams X mem = .ok p →
        stepFunctionOk p.consensus.heightDefinitions ∧
          p.consensus.heightDefinitions.map Prod.fst = [200] ∧
          p.consensus.minAgeDefinitions = [] ∧ p.consensus.maxAgeDefinitions = [] ∧
          p.consensus.weightDefinitions = []) ∧
      (∀ p, CRegTestParams X mem args = .ok p →
        stepFunctionOk p.consensus.heightDefinitions ∧
          p.consensus.heightDefinitions.map Prod.fst = [200] ∧
          p.consensus.minAgeDefinitions = [] ∧ p.consensus.maxAgeDefinitions = [] ∧
          p.consensus.weightDefinitions = []) := by
  refine ⟨?_, ?_, ?_⟩
  · intro p h
    rw [(CMainParams_inv X mem p h).2]
    refine ⟨?_, ?_, ?_, ?_⟩ <;>
      exact stepFunctionOk_of_check _ (by simp [CMainParams.afterGenesis, setGenesis,
        CMainParams.beforeGenesis]) (by simp [CMainParams.afterGenesis, setGenesis,
        CMainParams.beforeGenesis, isStrictlyIncreasing])
  · intro p h
    rw [(CTestNetParams_inv X mem p h).2]
    refine ⟨stepFunctionOk_of_check _ (by simp [CTestNetParams.afterGenesis, setGenesis,
        CTestNetParams.beforeGenesis]) (by simp [CTestNetParams.afterGenesis, setGenesis,
        CTestNetParams.beforeGenesis, isStrictlyIncreasing]), ?_, ?_, ?_, ?_⟩ <;>
      simp [CTestNetParams.afterGenesis, setGenesis, CTestNetParams.beforeGenesis,
        CChainParams.fresh]
  · intro p h
    obtain ⟨hh, h1, h2, h3, -⟩ := CRegTestParams_inv_tables X mem p args h
    refine ⟨stepFunctionOk_of_check _ (by rw [hh]; simp) (by rw [hh]; simp [isStrictlyIncreasing]),
      by rw [hh]; rfl, h1, h2, h3⟩

/-- Counterexample to C8 as stated: the test profile constructed in the sample
environment has an empty `minAgeDefinitions`, which is not a well-formed step function. -/
theorem step_functions_counterexample :
    ∃ p, CTestNetParams sampleExternals zeroMem = .ok p ∧
      p.consensus.minAgeDefinitions = [] ∧ ¬ allStepFunctionsOk p.consensus := by
  refine ⟨_, CTestNetParams_ok sampleExternals zeroMem sampleExternals_genesisOk.2.1, ?_, ?_⟩
  · simp [CTestNetParams.afterGenesis, setGenesis, CTestNetParams.beforeGenesis,
      CChainParams.fresh]
  · intro hall
    have hne := hall.1.1
    simp [CTestNetParams.afterGenesis, setGenesis, CTestNetParams.beforeGenesis,
      CChainParams.fresh] at hne

/-- Witness of C8 (as amended) in the sample environment: the three constructions
succeed and their profiles have the step functions described. -/
theorem step_functions_as_set_witness :
    (∃ p, CMainParams sampleExternals zeroMem = .ok p ∧ allStepFunctionsOk p.consensus) ∧
      (∃ p, CTestNetParams sampleExternals zeroMem = .ok p ∧
        stepFunctionOk p.consensus.heightDefinitions ∧ p.consensus.weightDefinitions = []) ∧
      (∃ p, CRegTestParams sampleExternals zeroMem noArgs = .ok p ∧
        stepFunctionOk p.consensus.heightDefinitions ∧ p.consensus.weightDefinitions = []) := by
  obtain ⟨hm, ht, hr⟩ := step_functions_as_set sampleExternals zeroMem noArgs
  refine ⟨⟨_, CMainParams_ok sampleExternals zeroMem sampleExternals_genesisOk.1, hm _
      (CMainParams_ok sampleExternals zeroMem sampleExternals_genesisOk.1)⟩, ?_, ?_⟩
  · have hok := CTestNetParams_ok sampleExternals zeroMem sampleExternals_genesisOk.2.1
    exact ⟨_, hok, (ht _ hok).1, (ht _ hok).2.2.2.2⟩
  · have hok := CRegTestParams_ok sampleExternals zeroMem noArgs _ sampleExternals_genesisOk.2.2
      (UpdateVersionBitsParametersFromArgs_unset sampleExternals noArgs _ (Eq.refl false))
    exact ⟨_, hok, (hr _ hok).1, (hr _ hok).2.2.2.2⟩

theorem quorumConsistent_of_tables (c : Consensus.Params) (m : List (LLMQType × LLMQParams))
    (k1 k2 : LLMQType) (hm : c.llmqs = m) (h1 : c.llmqChainLocks = k1)
    (h2 : c.llmqForInstantSend = k2)
    (hcheck : k1 ∈ mapKeys m ∧ k2 ∈ mapKeys m ∧ ∀ kv ∈ m, kv.2.type = kv.1) :
    quorumConsistent c := by
  unfold quorumConsistent
  rw [hm, h1, h2]
  exact hcheck

/-- C9. Quorum selection consistency: in the profile each of the three constructors
returns, `llmqChainLocks` and `llmqForInstantSend` are keys of the `llmqs` map, and every
entry of the map is stored under the type its record carries. -/
theorem quorum_selection_consistency (X : Externals) (mem : CChainParams) (args : ArgsManager) :
    (∀ p, CMainParams X mem = .ok p → quorumConsistent p.consensus) ∧
      (∀ p, CTestNetParams X mem = .ok p → quorumConsistent p.consensus) ∧
      (∀ p, CRegTestParams X mem args = .ok p → quorumConsistent p.consensus) := by
  refine ⟨?_, ?_, ?_⟩
  · intro p h
    rw [(CMainParams_inv X mem p h).2]
    exact quorumConsistent_of_tables _
      [(.LLMQ_50_60, llmq50_60), (.LLMQ_400_60, llmq400_60), (.LLMQ_400_85, llmq400_85)]
      .LLMQ_400_60 .LLMQ_50_60
      (by simp [CMainParams.afterGenesis, setGenesis, CMainParams.beforeGenesis,
        CChainParams.fresh, mapAssign])
      (by simp [CMainParams.afterGenesis]) (by simp [CMainParams.afterGenesis]) (by decide)
  · intro p h
    rw [(CTestNetParams_inv X mem p h).2]
    exact quorumConsistent_of_tables _
      [(.LLMQ_50_60, llmq50_60), (.LLMQ_400_60, llmq400_60), (.LLMQ_400_85, llmq400_85)]
      .LLMQ_50_60 .LLMQ_50_60
      (by simp [CTestNetParams.afterGenesis, setGenesis, CTestNetParams.beforeGenesis,
        CChainParams.fresh, mapAssign])
      (by simp [CTestNetParams.afterGenesis]) (by simp [CTestNetParams.afterGenesis]) (by decide)
  · intro p h
    obtain ⟨-, -, -, -, hm, h1, h2, -⟩ := CRegTestParams_inv_tables X mem p args h
    exact quorumConsistent_of_tables _ _ _ _ hm h1 h2 (by decide)

/-- Witness of C9 in the sample environment: the three constructions succeed and their
profiles are consistent; on main the chain-lock type is `LLMQ_400_60`. -/
theorem quorum_selection_consistency_witness :
    (∃ p, CMainParams sampleExternals zeroMem = .ok p ∧ quorumConsistent p.consensus ∧
        p.consensus.llmqChainLocks = .LLMQ_400_60) ∧
      (∃ p, CTestNetParams sampleExternals zeroMem = .ok p ∧ quorumConsistent p.consensus) ∧
      (∃ p, CRegTestParams sampleExternals zeroMem noArgs = .ok p ∧
        quorumConsistent p.consensus) := by
  obtain ⟨hm, ht, hr⟩ := quorum_selection_consistency sampleExternals zeroMem noArgs
  refine ⟨?_, ?_, ?_⟩
  · have hok := CMainParams_ok sampleExternals zeroMem sampleExternals_genesisOk.1
    exact ⟨_, hok, hm _ hok, by simp [CMainParams.afterGenesis]⟩
  · have hok := CTestNetParams_ok sampleExternals zeroMem sampleExternals_genesisOk.2.1
    exact ⟨_, hok, ht _ hok⟩
  · have hok := CRegTestParams_ok sampleExternals zeroMem noArgs _ sampleExternals_genesisOk.2.2
      (UpdateVersionBitsParametersFromArgs_unset sampleExternals noArgs _ (Eq.refl false))
    exact ⟨_, hok, hr _ hok⟩

theorem main_checkpoints (X : Externals) (mem : CChainParams) :
    (CMainParams.afterGenesis (setGenesis X (CMainParams.beforeGenesis X mem)
        (CreateGenesisBlock X 1574334000 27296764 0x1e0ffff0 1 (0 * X.COIN)))).checkpointData.mapCheckpoints
      = [ (1, uint256S "0x0000062cf9ac97b1582474e313770e4609c338ed6fae01142da65722353465f3"),
          (100, uint256S "0x000005faf4d7d9dccd3a1986eb7150a22f21f80664d5deb91cb1ca38eb305e7e"),
          (6439, uint256S "0x7c6f9621fe18f22e57d042a3804be45a9ace2d17a305036242d7ba90b68345cb"),
          (70004, uint256S "0x2da7cf773e5032a76aa4480b033c1ac6978ff64531f168c92d022c90f5bf7996"),
          (80000, uint256S "0x1f6545f0cd4a07a02a5b0175f22b371fc1839839df8d835c04f6420a08d43877"),
          (90000, uint256S "0x1d4a1b059b96fa871e9aa09eca0e2ed18ef369556ef8ee88bacf3b3705812e26"),
          (100000, uint256S "0x8a58bc2b0d6b13229f4ec1d9733317a82e62dbc035e09384ee9e73b77a3e3c76"),
          (105000, uint256S "0xa9e075e368ebc428c223055d4c3db108106098237dc9f55af687f56781c4d932"),
          (110000, uint256S "0xfc62dddbd615c0c5d34fc24cb4f6d6b86f02465c036ac42d1bda585e1ac3d066") ] := by
  simp only [CMainParams.afterGenesis]

theorem checkpoint_one_value :
    uint256S "0x0000062cf9ac97b1582474e313770e4609c338ed6fae01142da65722353465f3"
      = 0x0000062cf9ac97b1582474e313770e4609c338ed6fae01142da65722353465f3 := by
  decide!

/-- C10. Checkpoint ordering: in the profile each of the three constructors returns, the
checkpoint heights, in the order listed, are strictly increasing (the test and regtest
tables are empty); and on main the checkpoint at height 1 is
`0000062cf9ac97b1582474e313770e4609c338ed6fae01142da65722353465f3`. -/
theorem checkpoint_ordering (X : Externals) (mem : CChainParams) (args : ArgsManager) :
    (∀ p, CMainParams X mem = .ok p →
        strictlyIncreasing (checkpointHeights p) ∧
          checkpointHeights p = [1, 100, 6439, 70004, 80000, 90000, 100000, 105000, 110000] ∧
          mapFind p.checkpointData.mapCheckpoints 1
            = some 0x0000062cf9ac97b1582474e313770e4609c338ed6fae01142da65722353465f3) ∧
      (∀ p, CTestNetParams X mem = .ok p →
        strictlyIncreasing (checkpointHeights p) ∧ checkpointHeights p = []) ∧
      (∀ p, CRegTestParams X mem args = .ok p →
        strictlyIncreasing (checkpointHeights p) ∧ checkpointHeights p = []) := by
  refine ⟨?_, ?_, ?_⟩
  · intro p h
    have hheights : checkpointHeights p
        = [1, 100, 6439, 70004, 80000, 90000, 100000, 105000, 110000] := by
      unfold checkpointHeights
      rw [(CMainParams_inv X mem p h).2, main_checkpoints]
      rfl
    refine ⟨?_, hheights, ?_⟩
    · rw [hheights]
      exact (isStrictlyIncreasing_iff _).1 (by decide)
    · rw [(CMainParams_inv X mem p h).2, main_checkpoints]
      simp only [mapFind, if_true, checkpoint_one_value]
  · intro p h
    have hheights : checkpointHeights p = [] := by
      unfold checkpointHeights
      rw [(CTestNetParams_inv X mem p h).2]
      simp only [CTestNetParams.afterGenesis, List.map]
    rw [hheights]
    exact ⟨(isStrictlyIncreasing_iff _).1 (by decide), rfl⟩
  · intro p h
    have hheights : checkpointHeights p = [] := by
      unfold checkpointHeights
      rw [(CRegTestParams_inv_tables X mem p args h).2.2.2.2.2.2.2]
      rfl
    rw [hheights]
    exact ⟨(isStrictlyIncreasing_iff _).1 (by decide), rfl⟩

/-- Witness of C10 in the sample environment: the main construction succeeds, its
checkpoint heights are strictly increasing and its checkpoint at height 1 is the hash
listed. -/
theorem checkpoint_ordering_witness :
    ∃ p, CMainParams sampleExternals zeroMem = .ok p ∧
      strictlyIncreasing (checkpointHeights p) ∧
      mapFind p.checkpointData.mapCheckpoints 1
        = some 0x0000062cf9ac97b1582474e313770e4609c338ed6fae01142da65722353465f3 := by
  have hok := CMainParams_ok sampleExternals zeroMem sampleExternals_genesisOk.1
  obtain ⟨h1, -, h3⟩ := (checkpoint_ordering sampleExternals zeroMem noArgs).1 _ hok
  exact ⟨_, hok, h1, h3⟩

/-! ### Scalars of the profiles -/

theorem main_powLimit_value :
    uint256S "00000fffffffffffffffffffffffffffffffffffffffffffffffffffffffffff" = 2 ^ 236 - 1 := by
  decide!

/-- C11. Main difficulty ceiling: in the profile `CMainParams` returns, `powLimit`, read
as an unsigned 256-bit integer, is `(2^256 - 1) >> 20 = 2^236 - 1`: of its 256 bits the
low 236 are one and the top 20 are zero; and the default port is 9333. -/
theorem main_difficulty_ceiling (X : Externals) (mem p : CChainParams)
    (h : CMainParams X mem = .ok p) :
    p.consensus.powLimit = (2 ^ 256 - 1) >>> 20 ∧
      p.consensus.powLimit = 2 ^ 236 - 1 ∧
      (∀ i, i < 256 → p.consensus.powLimit.testBit i = decide (i < 236)) ∧
      p.nDefaultPort = 9333 := by
  have hpow : p.consensus.powLimit = 2 ^ 236 - 1 := by
    rw [(CMainParams_inv X mem p h).2]
    simp only [CMainParams.afterGenesis, setGenesis, CMainParams.beforeGenesis,
      main_powLimit_value]
  have hport : p.nDefaultPort = 9333 := by
    rw [(CMainParams_inv X mem p h).2]
    simp only [CMainParams.afterGenesis, setGenesis, CMainParams.beforeGenesis]
  refine ⟨?_, hpow, ?_, hport⟩
  · rw [hpow]
    decide
  · intro i _
    rw [hpow, Nat.testBit_two_pow_sub_one]

/-- Witness of C11 in the sample environment: the main construction succeeds and its
profile has the ceiling `2^236 - 1` and the port 9333. -/
theorem main_difficulty_ceiling_witness :
    ∃ p, CMainParams sampleExternals zeroMem = .ok p ∧
      p.consensus.powLimit = 2 ^ 236 - 1 ∧ p.nDefaultPort = 9333 := by
  have hok := CMainParams_ok sampleExternals zeroMem sampleExternals_genesisOk.1
  obtain ⟨-, h2, -, h4⟩ := main_difficulty_ceiling sampleExternals zeroMem _ hok
  exact ⟨_, hok, h2, h4⟩

theorem CRegTestParams_inv_scalars (X : Externals) (mem p : CChainParams) (args : ArgsManager)
    (h : CRegTestParams X mem args = .ok p) :
    p.consensus.BIP34Height = mem.consensus.nLastPoWBlock ∧
      p.consensus.BIP65Height = mem.consensus.nLastPoWBlock ∧
      p.consensus.BIP66Height = mem.consensus.nLastPoWBlock ∧
      p.consensus.nLastPoWBlock = 1000 ∧
      p.consensus.nPowTargetTimespan = 14 * 24 * 60 * 60 ∧
      p.consensus.nPowTargetSpacing = 10 * 60 ∧
      p.consensus.nRuleChangeActivationThreshold = 108 ∧
      p.consensus.nMinerConfirmationWindow = 144 ∧
      p.consensus.powLimit
        = uint256S "7fffffffffffffffffffffffffffffffffffffffffffffffffffffffffffffff" ∧
      p.genesis.nBits = 0x207fffff := by
  obtain ⟨c, hup, -, hp⟩ := CRegTestParams_inv X mem p args h
  have hsame := UpdateVersionBitsParametersFromArgs_same X args _ c hup
  unfold sameExceptDeployments at hsame
  rw [hp, hsame]
  simp only [CRegTestParams.afterGenesis, setGenesis, CRegTestParams.beforeArgs,
    CChainParams.fresh, CreateGenesisBlock, CreateGenesisBlockOf, and_self]

/-- C12 (what the code does). Regtest activation heights: in the profile
`CRegTestParams` returns, `BIP34Height`, `BIP65Height` and `BIP66Height` hold the value
the member `nLastPoWBlock` had in the object's storage before the constructor assigned
it, while `nLastPoWBlock` itself is 1000; the three heights equal `nLastPoWBlock` only
when that storage happened to hold 1000. -/
theorem regtest_activation_heights (X : Externals) (mem p : CChainParams) (args : ArgsManager)
    (h : CRegTestParams X mem args = .ok p) :
    p.consensus.BIP34Height = mem.consensus.nLastPoWBlock ∧
      p.consensus.BIP65Height = mem.consensus.nLastPoWBlock ∧
      p.consensus.BIP66Height = mem.consensus.nLastPoWBlock ∧
      p.consensus.nLastPoWBlock = 1000 ∧
      (p.consensus.BIP34Height = p.consensus.nLastPoWBlock ↔ mem.consensus.nLastPoWBlock = 1000) := by
  obtain ⟨h34, h65, h66, hlast, -⟩ := CRegTestParams_inv_scalars X mem p args h
  refine ⟨h34, h65, h66, hlast, ?_⟩
  rw [h34, hlast]

/-- Failing input of C12: constructed on zero-filled storage with no `-vbparams`, the
regtest profile has `BIP34Height = BIP65Height = BIP66Height = 0` although its
`nLastPoWBlock` is 1000. -/
theorem regtest_activation_heights_failing :
    ∃ p, CRegTestParams sampleExternals zeroMem noArgs = .ok p ∧
      p.consensus.BIP34Height = 0 ∧ p.consensus.BIP65Height = 0 ∧
      p.consensus.BIP66Height = 0 ∧ p.consensus.nLastPoWBlock = 1000 ∧
      p.consensus.BIP34Height ≠ p.consensus.nLastPoWBlock := by
  have hok := CRegTestParams_ok sampleExternals zeroMem noArgs _ sampleExternals_genesisOk.2.2
    (UpdateVersionBitsParametersFromArgs_unset sampleExternals noArgs _ (Eq.refl false))
  obtain ⟨h34, h65, h66, hlast, -⟩ :=
    regtest_activation_heights sampleExternals zeroMem _ noArgs hok
  have hzero : zeroMem.consensus.nLastPoWBlock = 0 := rfl
  rw [hzero] at h34 h65 h66
  refine ⟨_, hok, h34, h65, h66, hlast, ?_⟩
  rw [h34, hlast]
  decide

/-- C13 (what the code does). Confirmation window versus retarget period: the main and
test constructors set `nMinerConfirmationWindow` to 2016 although
`nPowTargetTimespan / nPowTargetSpacing` is 1440 on main and 20160 on test, so the window
is not the quotient the comment on the assignment names; the rule-change activation
threshold is the smallest integer that is at least 95% of the window on main, and exactly
75% of the window on test and regtest. -/
theorem confirmation_window (X : Externals) (mem : CChainParams) (args : ArgsManager) :
    (∀ p, CMainParams X mem = .ok p →
        p.consensus.nMinerConfirmationWindow = 2016 ∧
          p.consensus.nPowTargetTimespan / p.consensus.nPowTargetSpacing = 1440 ∧
          95 * p.consensus.nMinerConfirmationWindow
            ≤ 100 * p.consensus.nRuleChangeActivationThreshold ∧
          100 * (p.consensus.nRuleChangeActivationThreshold - 1)
            < 95 * p.consensus.nMinerConfirmationWindow) ∧
      (∀ p, CTestNetParams X mem = .ok p →
        p.consensus.nMinerConfirmationWindow = 2016 ∧
          p.consensus.nPowTargetTimespan / p.consensus.nPowTargetSpacing = 20160 ∧
          100 * p.consensus.nRuleChangeActivationThreshold
            = 75 * p.consensus.nMinerConfirmationWindow) ∧
      (∀ p, CRegTestParams X mem args = .ok p →
        p.consensus.nMinerConfirmationWindow = 144 ∧
          100 * p.consensus.nRuleChangeActivationThreshold
            = 75 * p.consensus.nMinerConfirmationWindow) := by
  refine ⟨?_, ?_, ?_⟩
  · intro p h
    have hw : p.consensus.nMinerConfirmationWindow = 2016 := by
      rw [(CMainParams_inv X mem p h).2]
      simp only [CMainParams.afterGenesis, setGenesis, CMainParams.beforeGenesis]
    have ht : p.consensus.nRuleChangeActivationThreshold = 1916 := by
      rw [(CMainParams_inv X mem p h).2]
      simp only [CMainParams.afterGenesis, setGenesis, CMainParams.beforeGenesis]
    have hs : p.consensus.nPowTargetTimespan = 1 * 24 * 60 * 60 ∧
        p.consensus.nPowTargetSpacing = 1 * 60 := by
      rw [(CMainParams_inv X mem p h).2]
      simp only [CMainParams.afterGenesis, setGenesis, CMainParams.beforeGenesis, and_self]
    rw [hw, ht, hs.1, hs.2]
    decide
  · intro p h
    have hw : p.consensus.nMinerConfirmationWindow = 2016 := by
      rw [(CTestNetParams_inv X mem p h).2]
      simp only [CTestNetParams.afterGenesis, setGenesis, CTestNetParams.beforeGenesis]
    have ht : p.consensus.nRuleChangeActivationThreshold = 1512 := by
      rw [(CTestNetParams_inv X mem p h).2]
      simp only [CTestNetParams.afterGenesis, setGenesis, CTestNetParams.beforeGenesis]
    have hs : p.consensus.nPowTargetTimespan = 14 * 24 * 60 * 60 ∧
        p.consensus.nPowTargetSpacing = 1 * 60 := by
      rw [(CTestNetParams_inv X mem p h).2]
      simp only [CTestNetParams.afterGenesis, setGenesis, CTestNetParams.beforeGenesis, and_self]
    rw [hw, ht, hs.1, hs.2]
    decide
  · intro p h
    obtain ⟨-, -, -, -, -, -, ht, hw, -⟩ := CRegTestParams_inv_scalars X mem p args h
    rw [hw, ht]
    decide

/-- Failing input of C13: the main and test profiles constructed in the sample
environment have a confirmation window of 2016 blocks, which differs from
`nPowTargetTimespan / nPowTargetSpacing` on both. -/
theorem confirmation_window_failing :
    (∃ p, CMainParams sampleExternals zeroMem = .ok p ∧
        p.consensus.nMinerConfirmationWindow
          ≠ p.consensus.nPowTargetTimespan / p.consensus.nPowTargetSpacing) ∧
      (∃ p, CTestNetParams sampleExternals zeroMem = .ok p ∧
        p.consensus.nMinerConfirmationWindow
          ≠ p.consensus.nPowTargetTimespan / p.consensus.nPowTargetSpacing) := by
  obtain ⟨hm, ht, -⟩ := confirmation_window sampleExternals zeroMem noArgs
  constructor
  · have hok := CMainParams_ok sampleExternals zeroMem sampleExternals_genesisOk.1
    obtain ⟨hw, hq, -⟩ := hm _ hok
    refine ⟨_, hok, ?_⟩
    rw [hw, hq]
    decide
  · have hok := CTestNetParams_ok sampleExternals zeroMem sampleExternals_genesisOk.2.1
    obtain ⟨hw, hq, -⟩ := ht _ hok
    refine ⟨_, hok, ?_⟩
    rw [hw, hq]
    decide

/-! ### Genesis proof of work -/

theorem main_genesis_pow_literals :
    uint256S "0x0000025289d6b03cbda4950e825cd865185f34fbb3e098295534b63d78beba15"
        ≤ compactTarget 0x1e0ffff0 ∧
      compactTarget 0x1e0ffff0
        ≤ uint256S "00000fffffffffffffffffffffffffffffffffffffffffffffffffffffffffff" := by
  decide!

theorem test_genesis_pow_literals :
    uint256S "0x00000546a6b03a54ae05f94119e37c55202e90a953058c35364d112d41ded06a"
        ≤ compactTarget 0x1e0ffff0 ∧
      compactTarget 0x1e0ffff0
        ≤ uint256S "00000ffff0000000000000000000000000000000000000000000000000000000" := by
  decide!

theorem regtest_genesis_pow_literals :
    uint256S "0x100a3271b95d1a817101bcbd7045ad14c9799cb34e1cb6071973c8932ae48b6a"
        ≤ compactTarget 0x207fffff ∧
      compactTarget 0x207fffff
        ≤ uint256S "7fffffffffffffffffffffffffffffffffffffffffffffffffffffffffffffff" := by
  decide!

theorem compactTarget_values :
    compactTarget 0x1e0ffff0 = 0xffff0 * 2 ^ 216 ∧ compactTarget 0x207fffff = 0x7fffff * 2 ^ 232 := by
  decide!

/-- C14. Genesis proof-of-work consistency: in the profile each of the three constructors
returns, the genesis hash is the literal the constructor asserts, and with `target` the
compact decoding of the genesis `nBits` (mantissa in the low 23 bits, exponent in the top
byte, `target = mantissa * 256^(exponent - 3)`), that hash, read as an unsigned 256-bit
integer, is at most `target`, and `target` is at most the profile's `powLimit`. -/
theorem genesis_pow_consistency (X : Externals) (mem : CChainParams) (args : ArgsManager) :
    (∀ p, CMainParams X mem = .ok p →
        p.consensus.hashGenesisBlock
            = uint256S "0x0000025289d6b03cbda4950e825cd865185f34fbb3e098295534b63d78beba15" ∧
          p.genesis.nBits = 0x1e0ffff0 ∧
          p.consensus.hashGenesisBlock ≤ compactTarget p.genesis.nBits ∧
          compactTarget p.genesis.nBits ≤ p.consensus.powLimit) ∧
      (∀ p, CTestNetParams X mem = .ok p →
        p.consensus.hashGenesisBlock
            = uint256S "0x00000546a6b03a54ae05f94119e37c55202e90a953058c35364d112d41ded06a" ∧
          p.genesis.nBits = 0x1e0ffff0 ∧
          p.consensus.hashGenesisBlock ≤ compactTarget p.genesis.nBits ∧
          compactTarget p.genesis.nBits ≤ p.consensus.powLimit) ∧
      (∀ p, CRegTestParams X mem args = .ok p →
        p.consensus.hashGenesisBlock
            = uint256S "0x100a3271b95d1a817101bcbd7045ad14c9799cb34e1cb6071973c8932ae48b6a" ∧
          p.genesis.nBits = 0x207fffff ∧
          p.consensus.hashGenesisBlock ≤ compactTarget p.genesis.nBits ∧
          compactTarget p.genesis.nBits ≤ p.consensus.powLimit) := by
  refine ⟨?_, ?_, ?_⟩
  · intro p h
    obtain ⟨hg, hp⟩ := CMainParams_inv X mem p h
    have hhash : p.consensus.hashGenesisBlock
        = uint256S "0x0000025289d6b03cbda4950e825cd865185f34fbb3e098295534b63d78beba15" := by
      rw [hp]
      simp only [CMainParams.afterGenesis, setGenesis]
      exact hg.1
    have hbits : p.genesis.nBits = 0x1e0ffff0 := by
      rw [hp]
      simp only [CMainParams.afterGenesis, setGenesis, CreateGenesisBlock, CreateGenesisBlockOf]
    have hlimit : p.consensus.powLimit
        = uint256S "00000fffffffffffffffffffffffffffffffffffffffffffffffffffffffffff" := by
      rw [hp]
      simp only [CMainParams.afterGenesis, setGenesis, CMainParams.beforeGenesis]
    rw [hhash, hbits, hlimit]
    exact ⟨rfl, rfl, main_genesis_pow_literals⟩
  · intro p h
    obtain ⟨hg, hp⟩ := CTestNetParams_inv X mem p h
    have hhash : p.consensus.hashGenesisBlock
        = uint256S "0x00000546a6b03a54ae05f94119e37c55202e90a953058c35364d112d41ded06a" := by
      rw [hp]
      simp only [CTestNetParams.afterGenesis, setGenesis]
      exact hg.1
    have hbits : p.genesis.nBits = 0x1e0ffff0 := by
      rw [hp]
      simp only [CTestNetParams.afterGenesis, setGenesis, CreateGenesisBlock,
        CreateGenesisBlockOf]
    have hlimit : p.consensus.powLimit
        = uint256S "00000ffff0000000000000000000000000000000000000000000000000000000" := by
      rw [hp]
      simp only [CTestNetParams.afterGenesis, setGenesis, CTestNetParams.beforeGenesis]
    rw [hhash, hbits, hlimit]
    exact ⟨rfl, rfl, test_genesis_pow_literals⟩
  · intro p h
    obtain ⟨c, -, hg, hp⟩ := CRegTestParams_inv X mem p args h
    obtain ⟨-, -, -, -, -, -, -, -, hlimit, hbits⟩ := CRegTestParams_inv_scalars X mem p args h
    have hhash : p.consensus.hashGenesisBlock
        = uint256S "0x100a3271b95d1a817101bcbd7045ad14c9799cb34e1cb6071973c8932ae48b6a" := by
      rw [hp]
      simp only [CRegTestParams.afterGenesis, setGenesis]
      exact hg.1
    rw [hhash, hbits, hlimit]
    exact ⟨rfl, rfl, regtest_genesis_pow_literals⟩

/-- Witness of C14 in the sample environment, whose hashes are the double SHA-256 of the
wire format: the three constructions succeed, and each genesis hash is at most the target
its `nBits` encode, which is at most the profile's `powLimit`. -/
theorem genesis_pow_consistency_witness :
    (∃ p, CMainParams sampleExternals zeroMem = .ok p ∧
        p.consensus.hashGenesisBlock ≤ compactTarget p.genesis.nBits ∧
        compactTarget p.genesis.nBits ≤ p.consensus.powLimit) ∧
      (∃ p, CTestNetParams sampleExternals zeroMem = .ok p ∧
        p.consensus.hashGenesisBlock ≤ compactTarget p.genesis.nBits ∧
        compactTarget p.genesis.nBits ≤ p.consensus.powLimit) ∧
      (∃ p, CRegTestParams sampleExternals zeroMem noArgs = .ok p ∧
        p.consensus.hashGenesisBlock ≤ compactTarget p.genesis.nBits ∧
        compactTarget p.genesis.nBits ≤ p.consensus.powLimit) := by
  obtain ⟨hm, ht, hr⟩ := genesis_pow_consistency sampleExternals zeroMem noArgs
  refine ⟨?_, ?_, ?_⟩
  · have hok := CMainParams_ok sampleExternals zeroMem sampleExternals_genesisOk.1
    exact ⟨_, hok, (hm _ hok).2.2⟩
  · have hok := CTestNetParams_ok sampleExternals zeroMem sampleExternals_genesisOk.2.1
    exact ⟨_, hok, (ht _ hok).2.2⟩
  · have hok := CRegTestParams_ok sampleExternals zeroMem noArgs _ sampleExternals_genesisOk.2.2
      (UpdateVersionBitsParametersFromArgs_unset sampleExternals noArgs _ (Eq.refl false))
    exact ⟨_, hok, (hr _ hok).2.2⟩

end BitGreen
